import Mathlib

/-!
Verification of the `rss` package (nickolashkraus/rss) against its
natural-language specification.

The embedding follows the current source file (`src/unnamed/part_000`,
the version the test suite compiles against), together with the helper
files concatenated into the repository (`errors.go` sentinels and
`utils.go` predicates `IsNotEmpty`, `IsEmpty`, `IsValidDate`,
`IsValidMailAddress`, `IsValidURI`).

Modelling conventions:
  * Go `string` and `[]byte` character data are Lean `String`.
  * Go pointer-to-string attribute types (`Domain`, `Port`, `Path`,
    `RegisterProcedure`, `Protocol`, `URL`, `Length`, `Type`,
    `IsPermaLink`) and pointer sub-elements (`*Title`, ...) are
    `Option`; `none` is a nil pointer.
  * `xml.Name` is modelled by its `Local` component (the only part the
    code reads); struct tags fix the names emitted by the serializer.
  * A Go `error` built by `fmt.Errorf("...: %w", msg, ErrX)` is
    modelled by its wrapped sentinel (`Err.kind`, what
    `errors.Is`/`assert.ErrorIs` observes) together with the structure
    of the `fmt.Sprintf` message (`Err.msg`); the constant text that
    some sites append after the `%w` verb carries no extra structure
    and is not modelled.
-/

namespace Rss

/-- The error sentinels of `errors.go` (`ErrEmptyValue`, `ErrNonEmptyValue`,
`ErrInvalidElement`, `ErrInvalidValue`, `ErrInvalidDate`,
`ErrInvalidMailAddress`, `ErrInvalidURI`). -/
inductive ErrKind where
  | emptyValue
  | nonEmptyValue
  | invalidElement
  | invalidValue
  | invalidDate
  | invalidMailAddress
  | invalidURI
deriving DecidableEq

/-- The four `fmt.Sprintf` message templates used by the `IsValid`
methods, with their parameters:
  * `elemInvalid name`: `"Element <name> is invalid"` /
    `"Attribute 'a' of <name> is required"`-style element-level text
    without a value — used by `Item`, `TextInput`, `Cloud` and
    `Enclosure` for element-level messages;
  * `elemValueInvalid name value`: `"Element <name> value 'value' is invalid"`;
  * `attrRequired a name`: `"Attribute 'a' of <name> is required"`;
  * `attrValueInvalid a name value`: `"Attribute 'a' of <name> value 'value' is invalid"`. -/
inductive ErrMsg where
  | elemInvalid (name : String)
  | elemValueInvalid (name value : String)
  | attrRequired (a name : String)
  | attrValueInvalid (a name value : String)
deriving DecidableEq

/-- One violation: the wrapped sentinel plus the message structure. -/
structure Err where
  kind : ErrKind
  msg : ErrMsg
deriving DecidableEq

/-- One `if <rule fails> { isValid = false; errs = append(errs, e) }`
block of an `IsValid` method: `pass` is the negation of the failure
condition.  The verdict becomes `acc.1 && pass` and the error is
appended exactly when the rule fails. -/
def chk (acc : Bool × List Err) (pass : Bool) (e : Err) : Bool × List Err :=
  (acc.1 && pass, acc.2 ++ if pass then [] else [e])

/-- One `if ok, e := <child>.IsValid(); !ok { isValid = false;
errs = append(errs, e...) }` block: the child's errors are appended
exactly when its verdict is false. -/
def sub (acc : Bool × List Err) (c : Bool × List Err) : Bool × List Err :=
  (acc.1 && c.1, acc.2 ++ if c.1 then [] else c.2)

/-- The `Validate` loop step for a struct field of pointer type that
implements `RSSElement`: a nil pointer is skipped (`continue`),
otherwise the child's `IsValid` contributes as in `sub`. -/
def subOpt (acc : Bool × List Err) (o : Option α) (f : α → Bool × List Err) :
    Bool × List Err :=
  match o with
  | none => acc
  | some x => sub acc (f x)

/-! ## Decimal integers (`strconv`)

`strconv.ParseUint(s, 10, 0)` and the decimal formatting/parsing that
`encoding/xml` performs for `int`-typed fields (`strconv.FormatInt` /
`strconv.ParseInt`). -/

/-- The ASCII digit character for `d < 10`. -/
def digitCh (d : Nat) : Char := Char.ofNat (48 + d)

/-- Decimal digits of `n`, most significant first, prepended to `acc`. -/
def digitsAux (n : Nat) (acc : List Char) : List Char :=
  if n < 10 then digitCh n :: acc
  else digitsAux (n / 10) (digitCh (n % 10) :: acc)
termination_by n
decreasing_by exact Nat.div_lt_self (by omega) (by omega)

/-- The value of an ASCII digit character, `none` for non-digits. -/
def digitVal (c : Char) : Option Nat :=
  if 48 ≤ c.toNat ∧ c.toNat ≤ 57 then some (c.toNat - 48) else none

/-- Decimal accumulation: consumes characters left to right, failing on
the first non-digit. -/
def parseNatFrom (acc : Nat) : List Char → Option Nat
  | [] => some acc
  | c :: cs =>
    match digitVal c with
    | some d => parseNatFrom (10 * acc + d) cs
    | none => none

/-- Unsigned decimal parsing: a non-empty all-digit string (no sign, as
in `strconv.ParseUint`). -/
def parseNatDigits : List Char → Option Nat
  | [] => none
  | c :: cs => parseNatFrom 0 (c :: cs)

/-- Modelled from the spec: `bounded_uint` parsing (§4.1) is implemented
by the external `strconv.ParseUint(s, 10, 0)`: base-10, no sign,
`bitSize 0` is the 64-bit `uint`, so values of `2^64` or more overflow
and return an error. -/
def parseUint10 (s : String) : Option Nat :=
  match parseNatDigits s.data with
  | some n => if n < 2 ^ 64 then some n else none
  | none => none

/-- Number of decimal digits produced by `digitsAux`. -/
def nd (n : Nat) : Nat :=
  if n < 10 then 1 else nd (n / 10) + 1
termination_by n
decreasing_by exact Nat.div_lt_self (by omega) (by omega)

theorem digitVal_digitCh {d : Nat} (h : d < 10) : digitVal (digitCh d) = some d := by
  interval_cases d <;> rfl

theorem digitCh_toNat {d : Nat} (h : d < 10) : (digitCh d).toNat = 48 + d := by
  interval_cases d <;> rfl

theorem parseNatFrom_digitsAux (n : Nat) :
    ∀ acc a, parseNatFrom a (digitsAux n acc) =
      parseNatFrom (a * 10 ^ nd n + n) acc := by
  induction n using Nat.strong_induction_on with
  | _ n ih =>
    intro acc a
    by_cases h : n < 10
    · rw [digitsAux, if_pos h, nd, if_pos h]
      simp only [parseNatFrom, digitVal_digitCh h]
      norm_num [Nat.mul_comm]
    · rw [digitsAux, if_neg h, nd, if_neg h]
      rw [ih (n / 10) (Nat.div_lt_self (by omega) (by omega))]
      simp only [parseNatFrom, digitVal_digitCh (Nat.mod_lt n (by omega))]
      congr 1
      have hdm : 10 * (n / 10) + n % 10 = n := Nat.div_add_mod n 10
      calc 10 * (a * 10 ^ nd (n / 10) + n / 10) + n % 10
          = 10 * (a * 10 ^ nd (n / 10)) + (10 * (n / 10) + n % 10) := by ring
        _ = a * 10 ^ (nd (n / 10) + 1) + n := by rw [hdm]; ring

theorem digitsAux_cons (n : Nat) :
    ∀ acc, ∃ d t, d < 10 ∧ digitsAux n acc = digitCh d :: t := by
  induction n using Nat.strong_induction_on with
  | _ n ih =>
    intro acc
    by_cases h : n < 10
    · exact ⟨n, acc, h, by rw [digitsAux, if_pos h]⟩
    · obtain ⟨d, t, hd, ht⟩ := ih (n / 10) (Nat.div_lt_self (by omega) (by omega))
        (digitCh (n % 10) :: acc)
      exact ⟨d, t, hd, by rw [digitsAux, if_neg h, ht]⟩

theorem parseNatDigits_digitsAux (n : Nat) :
    parseNatDigits (digitsAux n []) = some n := by
  obtain ⟨d, t, hd, ht⟩ := digitsAux_cons n []
  rw [ht]
  show parseNatFrom 0 (digitCh d :: t) = some n
  rw [← ht, parseNatFrom_digitsAux]
  simp [parseNatFrom]

/-- Modelled from the spec: the serializer collaborator (§4.3) emits an
`int` field with `strconv.FormatInt(i, 10)`: minus sign for negatives,
then the decimal digits. -/
def intToDecimal (i : Int) : String :=
  ⟨if i < 0 then '-' :: digitsAux i.natAbs [] else digitsAux i.natAbs []⟩

/-- Modelled from the spec: the serializer collaborator (§4.3) fills an
`int` field with `strconv.ParseInt(s, 10, 64)`, here on the character
list: optional `-` or `+` sign, then decimal digits. -/
def decimalToIntList : List Char → Option Int
  | [] => none
  | c :: rest =>
    if c = '-' then (parseNatDigits rest).map (fun n => -(n : Int))
    else if c = '+' then (parseNatDigits rest).map (fun n => (n : Int))
    else (parseNatDigits (c :: rest)).map (fun n => (n : Int))

/-- Modelled from the spec: the serializer collaborator (§4.3) fills an
`int` field with `strconv.ParseInt(s, 10, 64)`. -/
def decimalToInt? (s : String) : Option Int := decimalToIntList s.data

theorem digitCh_ne_sign {d : Nat} (h : d < 10) : digitCh d ≠ '-' ∧ digitCh d ≠ '+' := by
  interval_cases d <;> exact ⟨by decide, by decide⟩

theorem decimalToInt_intToDecimal (i : Int) :
    decimalToInt? (intToDecimal i) = some i := by
  by_cases h : i < 0
  · rw [intToDecimal, if_pos h]
    show decimalToIntList ('-' :: digitsAux i.natAbs []) = some i
    simp [decimalToIntList, parseNatDigits_digitsAux, abs_of_neg h]
  · rw [intToDecimal, if_neg h]
    obtain ⟨d, t, hd, ht⟩ := digitsAux_cons i.natAbs []
    show decimalToIntList (digitsAux i.natAbs []) = some i
    rw [ht]
    simp [decimalToIntList, (digitCh_ne_sign hd).1, (digitCh_ne_sign hd).2, ← ht,
      parseNatDigits_digitsAux, abs_of_nonneg (by omega : (0 : Int) ≤ i)]

/-! ## Syntactic validators (`utils.go` and its external collaborators)

`IsNotEmpty` and `IsEmpty` are plain string emptiness tests and are
inlined as `==`/`!=` comparisons at each use site.  The remaining three
predicates delegate to the Go standard library (`net/url`, `time`,
`net/mail`), an external collaborator of this repository. -/

/-- Modelled from the spec: `valid_uri` "fails `InvalidUri` if the
string does not parse as an absolute-or-relative URI per RFC 3986"
(§4.1); the implementation `IsValidURI` delegates to
`url.ParseRequestURI`, which accepts exactly an absolute URI (a valid
scheme followed by `:`) or a rooted path (leading `/`), and rejects the
empty string.  The scheme grammar: a letter followed by letters,
digits, `+`, `-` or `.`, then `:`.  -/
def schemeRest : List Char → Bool
  | [] => false
  | c :: rest =>
    if c = ':' then true
    else (c.isAlphanum || c = '+' || c = '-' || c = '.') && schemeRest rest

/-- Modelled from the spec: scheme recogniser, see `schemeRest`. -/
def schemeOk : List Char → Bool
  | [] => false
  | c :: rest => c.isAlpha && schemeRest rest

/-- Modelled from the spec: `IsValidURI` / `url.ParseRequestURI`, see
`schemeRest`. -/
def isValidURI (s : String) : Bool :=
  match s.data with
  | [] => false
  | c :: _ => c = '/' || schemeOk s.data

/-- Digit run of an exact length. -/
def allDigits (l : List Char) : Bool := l.all (fun c => (digitVal c).isSome)

/-- Split a character list on a separator character; like
`String.splitOn` with a one-character separator. -/
def splitOnChar (sep : Char) : List Char → List (List Char)
  | [] => [[]]
  | c :: rest =>
    let r := splitOnChar sep rest
    if c = sep then [] :: r
    else
      match r with
      | h :: t => (c :: h) :: t
      | [] => [[c]]

/-- Modelled from the spec: `valid_date` "fails `InvalidDate` unless
the string parses under RFC 822 or RFC 1123 timestamp grammar" (§4.1);
the implementation `IsValidDate` delegates to `time.Parse` with the
`time.RFC822` layout (`"02 Jan 06 15:04 MST"`) and, failing that, the
`time.RFC1123` layout (`"Mon, 02 Jan 2006 15:04:05 MST"`).  The model
recognises the token structure of the two layouts: day, month name,
two- or four-digit year, clock with in-range fields, and an alphabetic
zone name. -/
def monthNames : List String :=
  ["Jan", "Feb", "Mar", "Apr", "May", "Jun", "Jul", "Aug", "Sep", "Oct", "Nov", "Dec"]

/-- Modelled from the spec: day-of-week tokens of the RFC 1123 layout,
comma included. -/
def dayNames : List String :=
  ["Mon,", "Tue,", "Wed,", "Thu,", "Fri,", "Sat,", "Sun,"]

/-- Modelled from the spec: a 1- or 2-digit day-of-month in `[1, 31]`. -/
def dayTokOk (t : List Char) : Bool :=
  t ≠ [] && t.length ≤ 2 && allDigits t &&
    (match parseNatDigits t with
     | some v => 1 ≤ v && v ≤ 31
     | none => false)

/-- Modelled from the spec: an exactly `k`-digit numeric token. -/
def digitsTok (k : Nat) (t : List Char) : Bool := allDigits t && t.length = k

/-- Modelled from the spec: a `HH:MM` clock token with in-range fields. -/
def clockHM (t : List Char) : Bool :=
  match splitOnChar ':' t with
  | [h, m] =>
    digitsTok 2 h && digitsTok 2 m &&
      (match parseNatDigits h, parseNatDigits m with
       | some hv, some mv => hv ≤ 23 && mv ≤ 59
       | _, _ => false)
  | _ => false

/-- Modelled from the spec: a `HH:MM:SS` clock token with in-range fields. -/
def clockHMS (t : List Char) : Bool :=
  match splitOnChar ':' t with
  | [h, m, sec] =>
    digitsTok 2 h && digitsTok 2 m && digitsTok 2 sec &&
      (match parseNatDigits h, parseNatDigits m, parseNatDigits sec with
       | some hv, some mv, some sv => hv ≤ 23 && mv ≤ 59 && sv ≤ 59
       | _, _, _ => false)
  | _ => false

/-- Modelled from the spec: an alphabetic zone name such as `GMT`. -/
def zoneTok (t : List Char) : Bool := t ≠ [] && t.all Char.isAlpha

/-- Modelled from the spec: the RFC 822 layout `02 Jan 06 15:04 MST`. -/
def rfc822Ok (s : String) : Bool :=
  match splitOnChar ' ' s.data with
  | [d, mon, y, t, z] =>
    dayTokOk d && monthNames.contains ⟨mon⟩ && digitsTok 2 y && clockHM t && zoneTok z
  | _ => false

/-- Modelled from the spec: the RFC 1123 layout `Mon, 02 Jan 2006 15:04:05 MST`. -/
def rfc1123Ok (s : String) : Bool :=
  match splitOnChar ' ' s.data with
  | [w, d, mon, y, t, z] =>
    dayNames.contains ⟨w⟩ && dayTokOk d && monthNames.contains ⟨mon⟩ &&
      digitsTok 4 y && clockHMS t && zoneTok z
  | _ => false

/-- Modelled from the spec: `IsValidDate`, see `rfc822Ok`/`rfc1123Ok`. -/
def isValidDate (s : String) : Bool := rfc822Ok s || rfc1123Ok s

/-- Modelled from the spec: `valid_mail_address` "fails
`InvalidMailAddress` unless the string parses as a single RFC 5322
address" (§4.1); the implementation `IsValidMailAddress` delegates to
`mail.ParseAddress`.  The model requires a single `@` separating a
non-empty local part from a non-empty domain, neither containing a
space. -/
def isValidMailAddress (s : String) : Bool :=
  match splitOnChar '@' s.data with
  | [lp, dom] => lp ≠ [] && dom ≠ [] && !lp.contains ' ' && !dom.contains ' '
  | _ => false

/-! ## The element model (`rss.go`)

One structure per Go struct type, in source order; `Option` fields are
the `*string`-typed attributes and pointer sub-elements.  The
`IsValid` methods translate the bodies of the Go methods with the
`(bool, []error)` signature block by block via `chk`/`sub`. -/

/-- `const RSSVERSION = "2.0"`. -/
def RSSVERSION : String := "2.0"

/-- `type Version string`. -/
abbrev Version := String

/-- `func (r Version) IsValid() bool { return r == RSSVERSION }`.
NOTE: this method returns a bare `bool`, so `Version` does NOT
implement the `RSSElement` interface (`IsValid() (bool, []error)`) and
is never reached by `Validate`. -/
def Version.IsValid (r : Version) : Bool := r == RSSVERSION

/-- `<title>`: `XMLName xml.Name`, `CharData []byte`. -/
structure Title where
  xmlName : String
  charData : String
deriving DecidableEq

/-- `Title.IsValid`: `IsNotEmpty` on the character data. -/
def Title.IsValid (r : Title) : Bool × List Err :=
  chk (true, []) (r.charData != "") ⟨.emptyValue, .elemValueInvalid r.xmlName r.charData⟩

/-- `<link>`: `XMLName xml.Name`, `CharData []byte`. -/
structure Link where
  xmlName : String
  charData : String
deriving DecidableEq

/-- `Link.IsValid`: `IsNotEmpty` then `IsValidURI` on the character
data, both against the same message. -/
def Link.IsValid (r : Link) : Bool × List Err :=
  let acc := chk (true, []) (r.charData != "")
    ⟨.emptyValue, .elemValueInvalid r.xmlName r.charData⟩
  chk acc (isValidURI r.charData) ⟨.invalidURI, .elemValueInvalid r.xmlName r.charData⟩

/-- `<description>`: `XMLName xml.Name`, `CharData []byte`. -/
structure Description where
  xmlName : String
  charData : String
deriving DecidableEq

/-- `Description.IsValid`: `IsNotEmpty` on the character data. -/
def Description.IsValid (r : Description) : Bool × List Err :=
  chk (true, []) (r.charData != "") ⟨.emptyValue, .elemValueInvalid r.xmlName r.charData⟩

/-- `<pubDate>`: `XMLName xml.Name`, `CharData []byte`. -/
structure PubDate where
  xmlName : String
  charData : String
deriving DecidableEq

/-- `PubDate.IsValid`: `IsNotEmpty` then `IsValidDate`. -/
def PubDate.IsValid (r : PubDate) : Bool × List Err :=
  let acc := chk (true, []) (r.charData != "")
    ⟨.emptyValue, .elemValueInvalid r.xmlName r.charData⟩
  chk acc (isValidDate r.charData) ⟨.invalidDate, .elemValueInvalid r.xmlName r.charData⟩

/-- `<lastBuildDate>`: `XMLName xml.Name`, `CharData []byte`. -/
structure LastBuildDate where
  xmlName : String
  charData : String
deriving DecidableEq

/-- `LastBuildDate.IsValid`: `IsNotEmpty` then `IsValidDate`. -/
def LastBuildDate.IsValid (r : LastBuildDate) : Bool × List Err :=
  let acc := chk (true, []) (r.charData != "")
    ⟨.emptyValue, .elemValueInvalid r.xmlName r.charData⟩
  chk acc (isValidDate r.charData) ⟨.invalidDate, .elemValueInvalid r.xmlName r.charData⟩

/-- `<category>`: `XMLName`, `CharData`, optional `domain` attribute
(`type Domain *string`, a pointer type with no methods, hence not an
`RSSElement`). -/
structure Category where
  xmlName : String
  charData : String
  domain : Option String
deriving DecidableEq

/-- `Category.IsValid`: `IsNotEmpty` on the character data; if the
`domain` attribute is non-nil, `IsNotEmpty` on it. -/
def Category.IsValid (r : Category) : Bool × List Err :=
  let acc := chk (true, []) (r.charData != "")
    ⟨.emptyValue, .elemValueInvalid r.xmlName r.charData⟩
  match r.domain with
  | none => acc
  | some d => chk acc (d != "") ⟨.emptyValue, .attrValueInvalid "domain" r.xmlName d⟩

/-- The `port` attribute test of `Cloud.IsValid`, literally:
`if i, err := strconv.ParseUint(*r.Port, 10, 0); err != nil || (i < 1 && i > 65535)`.
The conjunction `i < 1 && i > 65535` is unsatisfiable, so any string
that parses as a `uint` passes, including "0" and "70000". -/
def portPass (p : String) : Bool :=
  match parseUint10 p with
  | none => false
  | some i => !(decide (i < 1) && decide (65535 < i))

/-- The `TTL`/`Enclosure.length` value test, literally:
`if i, err := strconv.ParseUint(s, 10, 0); err != nil || i < 0`.
`i` is unsigned, so `i < 0` is always false. -/
def uintPass (s : String) : Bool :=
  match parseUint10 s with
  | none => false
  | some i => !(decide (i < 0))

/-- `<cloud>`: prohibited character data plus five required `*string`
attributes. -/
structure Cloud where
  xmlName : String
  charData : String
  domain : Option String
  port : Option String
  path : Option String
  registerProcedure : Option String
  protocol : Option String
deriving DecidableEq

/-- `Cloud.IsValid`: `IsEmpty` on the character data, then for each of
the five attributes in declared order: nil → `ErrInvalidElement`
"required"; otherwise the per-attribute value rule. -/
def Cloud.IsValid (r : Cloud) : Bool × List Err :=
  let acc := chk (true, []) (r.charData == "") ⟨.nonEmptyValue, .elemInvalid r.xmlName⟩
  let acc := match r.domain with
    | none => chk acc false ⟨.invalidElement, .attrRequired "domain" r.xmlName⟩
    | some d => chk acc (d != "") ⟨.emptyValue, .attrValueInvalid "domain" r.xmlName d⟩
  let acc := match r.port with
    | none => chk acc false ⟨.invalidElement, .attrRequired "port" r.xmlName⟩
    | some p => chk acc (portPass p) ⟨.invalidValue, .attrValueInvalid "port" r.xmlName p⟩
  let acc := match r.path with
    | none => chk acc false ⟨.invalidElement, .attrRequired "path" r.xmlName⟩
    | some p => chk acc (p != "") ⟨.emptyValue, .attrValueInvalid "path" r.xmlName p⟩
  let acc := match r.registerProcedure with
    | none => chk acc false ⟨.invalidElement, .attrRequired "registerProcedure" r.xmlName⟩
    | some p =>
      chk acc (p != "") ⟨.emptyValue, .attrValueInvalid "registerProcedure" r.xmlName p⟩
  match r.protocol with
  | none => chk acc false ⟨.invalidElement, .attrRequired "protocol" r.xmlName⟩
  | some p =>
    chk acc (p == "xml-rpc" || p == "soap" || p == "http-post")
      ⟨.invalidValue, .attrValueInvalid "protocol" r.xmlName p⟩

/-- `<ttl>`: `XMLName`, `CharData`. -/
structure TTL where
  xmlName : String
  charData : String
deriving DecidableEq

/-- `TTL.IsValid`: `IsNotEmpty` then the `ParseUint` value rule. -/
def TTL.IsValid (r : TTL) : Bool × List Err :=
  let acc := chk (true, []) (r.charData != "")
    ⟨.emptyValue, .elemValueInvalid r.xmlName r.charData⟩
  chk acc (uintPass r.charData) ⟨.invalidValue, .elemValueInvalid r.xmlName r.charData⟩

/-- `<image>`: `URL` is `*string` (no methods, not an `RSSElement`);
`Title`, `Link`, `Description` are non-pointer struct fields that do
implement `RSSElement`; `Width`/`Height` have `IsValid() bool` only. -/
structure Image where
  xmlName : String
  url : Option String
  title : Title
  link : Link
  width : String
  height : String
  description : Description
deriving DecidableEq

/-- `Image.IsValid`: the source returns `(true, nil)` unconditionally
(the body is commented out). -/
def Image.IsValid (_ : Image) : Bool × List Err := (true, [])

/-- `<textInput>`: four required pointer sub-elements. -/
structure Name where
  xmlName : String
  charData : String
deriving DecidableEq

/-- `Name.IsValid`: `IsNotEmpty` on the character data. -/
def Name.IsValid (r : Name) : Bool × List Err :=
  chk (true, []) (r.charData != "") ⟨.emptyValue, .elemValueInvalid r.xmlName r.charData⟩

/-- `<source>`: optional character data (explicitly allowed to be
empty), required `url` attribute. -/
structure Source where
  xmlName : String
  charData : String
  url : Option String
deriving DecidableEq

/-- `Source.IsValid`: nil `url` → `ErrInvalidElement`; otherwise
`IsNotEmpty` then `IsValidURI` on it.  The character data is not
checked. -/
def Source.IsValid (r : Source) : Bool × List Err :=
  match r.url with
  | none => chk (true, []) false ⟨.invalidElement, .attrRequired "url" r.xmlName⟩
  | some u =>
    let acc := chk (true, []) (u != "") ⟨.emptyValue, .attrValueInvalid "url" r.xmlName u⟩
    chk acc (isValidURI u) ⟨.invalidURI, .attrValueInvalid "url" r.xmlName u⟩

/-- `<enclosure>`: prohibited character data, required `url`, `length`
and `type` attributes (`typ` here: `type` is reserved in Lean). -/
structure Enclosure where
  xmlName : String
  charData : String
  url : Option String
  length : Option String
  typ : Option String
deriving DecidableEq

/-- `Enclosure.IsValid`: `IsEmpty` on the character data; `url` nil →
required, else `IsNotEmpty` and `IsValidURI`; `length` nil → required,
else the `ParseUint` rule; `type` nil → required, else `IsNotEmpty`. -/
def Enclosure.IsValid (r : Enclosure) : Bool × List Err :=
  let acc := chk (true, []) (r.charData == "") ⟨.nonEmptyValue, .elemInvalid r.xmlName⟩
  let acc := match r.url with
    | none => chk acc false ⟨.invalidElement, .attrRequired "url" r.xmlName⟩
    | some u =>
      let acc := chk acc (u != "") ⟨.emptyValue, .attrValueInvalid "url" r.xmlName u⟩
      chk acc (isValidURI u) ⟨.invalidURI, .attrValueInvalid "url" r.xmlName u⟩
  let acc := match r.length with
    | none => chk acc false ⟨.invalidElement, .attrRequired "length" r.xmlName⟩
    | some l => chk acc (uintPass l) ⟨.invalidValue, .attrValueInvalid "length" r.xmlName l⟩
  match r.typ with
  | none => chk acc false ⟨.invalidElement, .attrRequired "type" r.xmlName⟩
  | some t => chk acc (t != "") ⟨.emptyValue, .attrValueInvalid "type" r.xmlName t⟩

/-- `<guid>`: required character data, optional `isPermaLink`
attribute (`type IsPermaLink *string`, no methods). -/
structure GUID where
  xmlName : String
  charData : String
  isPermaLink : Option String
deriving DecidableEq

/-- `GUID.IsValid`: `IsNotEmpty` on the character data; if
`isPermaLink` is non-nil it must be `"true"` or `"false"`; if it is
non-nil and `"true"`, `IsValidURI` on the character data (reusing the
element-level message — the attribute-level `msg` is scoped to the
previous block in the source). -/
def GUID.IsValid (r : GUID) : Bool × List Err :=
  let acc := chk (true, []) (r.charData != "")
    ⟨.emptyValue, .elemValueInvalid r.xmlName r.charData⟩
  let acc := match r.isPermaLink with
    | none => acc
    | some p =>
      chk acc (p == "true" || p == "false")
        ⟨.invalidValue, .attrValueInvalid "isPermaLink" r.xmlName p⟩
  match r.isPermaLink with
  | none => acc
  | some p =>
    if p == "true" then
      chk acc (isValidURI r.charData) ⟨.invalidURI, .elemValueInvalid r.xmlName r.charData⟩
    else acc

/-- `<comments>`: `XMLName`, `CharData`. -/
structure Comments where
  xmlName : String
  charData : String
deriving DecidableEq

/-- `Comments.IsValid`: `IsNotEmpty` then `IsValidURI`. -/
def Comments.IsValid (r : Comments) : Bool × List Err :=
  let acc := chk (true, []) (r.charData != "")
    ⟨.emptyValue, .elemValueInvalid r.xmlName r.charData⟩
  chk acc (isValidURI r.charData) ⟨.invalidURI, .elemValueInvalid r.xmlName r.charData⟩

/-- `<author>`: `XMLName`, `CharData`. -/
structure Author where
  xmlName : String
  charData : String
deriving DecidableEq

/-- `Author.IsValid`: `IsNotEmpty` then `IsValidMailAddress`. -/
def Author.IsValid (r : Author) : Bool × List Err :=
  let acc := chk (true, []) (r.charData != "")
    ⟨.emptyValue, .elemValueInvalid r.xmlName r.charData⟩
  chk acc (isValidMailAddress r.charData)
    ⟨.invalidMailAddress, .elemValueInvalid r.xmlName r.charData⟩

/-- `<textInput>`. -/
structure TextInput where
  xmlName : String
  title : Option Title
  description : Option Description
  name : Option Name
  link : Option Link
deriving DecidableEq

/-- `<item>`: all sub-elements are pointers, in declared order
`Title`, `Link`, `Description`, `Source`, `Enclosure`, `Category`,
`PubDate`, `GUID`, `Comments`, `Author`. -/
structure Item where
  xmlName : String
  title : Option Title
  link : Option Link
  description : Option Description
  source : Option Source
  enclosure : Option Enclosure
  category : Option Category
  pubDate : Option PubDate
  guid : Option GUID
  comments : Option Comments
  author : Option Author
deriving DecidableEq

/-- `type Hour int` is modelled as `Int` (the machine-word bound is
irrelevant to every rule applied to it); `Hour.IsValid`:
`if r < 0 || r > 23 { return false }; return true`. -/
def Hour.IsValid (r : Int) : Bool :=
  if r < 0 ∨ 23 < r then false else true

/-- `<skipHours>`: `Hour []*Hour` — a list of pointers, `none` is a
nil entry. -/
structure SkipHours where
  xmlName : String
  hour : List (Option Int)
deriving DecidableEq

/-- The loop `for _, h := range r.Hour { if !h.IsValid() { return false } }`:
calling the value-receiver method through a nil `*Hour` dereferences
nil and panics, modelled as `Except.error`. -/
def hoursValid : List (Option Int) → Except String Bool
  | [] => .ok true
  | none :: _ => .error "runtime error: invalid memory address or nil pointer dereference"
  | some h :: rest => if Hour.IsValid h then hoursValid rest else .ok false

/-- `SkipHours.IsValid` (`bool` receiver — not an `RSSElement`):
`len(r.Hour) > 24` short-circuits to false before any `Hour` is
dereferenced; otherwise each entry is checked in order. -/
def SkipHours.IsValid (r : SkipHours) : Except String Bool :=
  if r.hour.length > 24 then .ok false else hoursValid r.hour

/-- `type Day string`. -/
abbrev Day := String

/-- `Day.IsValid` always reports true (`TODO: Check if Monday - Sunday`
in the source). -/
def Day.IsValid (_ : Day) : Bool := true

/-- `<skipDays>`: `Day []*Day` — note the struct tag of this field in
the source is `xml:"hour"`, not `xml:"day"`. -/
structure SkipDays where
  xmlName : String
  day : List (Option Day)
deriving DecidableEq

/-- The `SkipDays` per-child loop, same nil-pointer behaviour as
`hoursValid`. -/
def daysValid : List (Option Day) → Except String Bool
  | [] => .ok true
  | none :: _ => .error "runtime error: invalid memory address or nil pointer dereference"
  | some d :: rest => if Day.IsValid d then daysValid rest else .ok false

/-- `SkipDays.IsValid` (`bool` receiver — not an `RSSElement`). -/
def SkipDays.IsValid (r : SkipDays) : Except String Bool :=
  if r.day.length > 7 then .ok false else daysValid r.day

/-- `<channel>`: the 20 sub-element fields plus the item list.  The
plain-`String` fields model the leaf string types (`Language`,
`Copyright`, `ManagingEditor`, `WebMaster`, `Generator`, `Docs`,
`Rating`, `Width`, `Height`) whose `IsValid` methods return a bare
`bool`. -/
structure Channel where
  xmlName : String
  title : Title
  link : Link
  description : Description
  language : String
  copyright : String
  managingEditor : String
  webMaster : String
  pubDate : PubDate
  lastBuildDate : LastBuildDate
  category : Category
  generator : String
  docs : String
  cloud : Cloud
  ttl : TTL
  image : Image
  rating : String
  textInput : TextInput
  skipHours : SkipHours
  skipDays : SkipDays
  item : List (Option Item)

/-- `<rss>`: `Version` attribute and `*Channel`. -/
structure RSS where
  xmlName : String
  version : Version
  channel : Option Channel

/-- The struct values of the element types whose `IsValid` method has
the `(bool, []error)` signature.  `Version`, `Channel`, `Language`,
`Copyright`, `ManagingEditor`, `WebMaster`, `Generator`, `Docs`,
`Width`, `Height`, `Rating`, `SkipHours`, `SkipDays`, `Hour` and `Day`
declare `IsValid() bool` and do NOT implement the `RSSElement`
interface.  The interface is also implemented by pointers to these
structs (a pointer type's method set contains the value-receiver
`IsValid`), and an interface variable can be nil: a full input of
`Validate` is an `RSSElementRef` below, of which these struct values
are the non-panicking case. -/
inductive RSSElementVal where
  | rss (r : RSS)
  | title (r : Title)
  | link (r : Link)
  | description (r : Description)
  | pubDate (r : PubDate)
  | lastBuildDate (r : LastBuildDate)
  | category (r : Category)
  | cloud (r : Cloud)
  | ttl (r : TTL)
  | image (r : Image)
  | textInput (r : TextInput)
  | name (r : Name)
  | item (r : Item)
  | source (r : Source)
  | enclosure (r : Enclosure)
  | guid (r : GUID)
  | comments (r : Comments)
  | author (r : Author)

/-- The field loop of `Validate`, per concrete struct: a field
contributes exactly when its type's method set contains
`IsValid() (bool, []error)` (the `RSSElement` type assertion), with
nil pointers skipped by `continue`.
  * `RSS`: `XMLName xml.Name` (no methods), `Version` and `*Channel`
    (`IsValid() bool` — wrong signature): no field contributes, so the
    loop returns `(true, [])` whatever the version or channel.
  * leaf structs (`Title` ... `Author`, `Cloud`, `TTL`, `Source`,
    `Enclosure`, `GUID`, `Category`): only `xml.Name`, `[]byte` and
    method-less `*string` fields: `(true, [])`.
  * `Image`: the non-pointer `Title`, `Link`, `Description` fields
    implement `RSSElement` and are visited directly.
  * `TextInput` and `Item`: every pointer sub-element field implements
    `RSSElement` via its value receiver. -/
def validateFields : RSSElementVal → Bool × List Err
  | .rss _ => (true, [])
  | .title _ => (true, [])
  | .link _ => (true, [])
  | .description _ => (true, [])
  | .pubDate _ => (true, [])
  | .lastBuildDate _ => (true, [])
  | .category _ => (true, [])
  | .cloud _ => (true, [])
  | .ttl _ => (true, [])
  | .image i =>
    sub (sub (sub (true, []) (Title.IsValid i.title)) (Link.IsValid i.link))
      (Description.IsValid i.description)
  | .textInput t =>
    subOpt (subOpt (subOpt (subOpt (true, []) t.title Title.IsValid)
      t.description Description.IsValid) t.name Name.IsValid) t.link Link.IsValid
  | .name _ => (true, [])
  | .item i =>
    subOpt (subOpt (subOpt (subOpt (subOpt (subOpt (subOpt (subOpt (subOpt (subOpt
      (true, []) i.title Title.IsValid) i.link Link.IsValid)
      i.description Description.IsValid) i.source Source.IsValid)
      i.enclosure Enclosure.IsValid) i.category Category.IsValid)
      i.pubDate PubDate.IsValid) i.guid GUID.IsValid)
      i.comments Comments.IsValid) i.author Author.IsValid
  | .source _ => (true, [])
  | .enclosure _ => (true, [])
  | .guid _ => (true, [])
  | .comments _ => (true, [])
  | .author _ => (true, [])

/-- An input of interface type `RSSElement`, as `Validate` receives
it: a struct value of an implementing type (`val`), a pointer to such
a struct — `some` the pointee, `none` a typed nil pointer of any of
the `*Title`, ..., `*Item` pointer implementers — or the nil
interface value. -/
inductive RSSElementRef where
  | val (v : RSSElementVal)
  | ptr (p : Option RSSElementVal)
  | nilInterface

/-- `func Validate(r RSSElement) (bool, []error)`:
`v := reflect.ValueOf(r)` is never indirected before the loop, and
`v.NumField()` panics (modelled as `Except.error`) unless `v.Kind()`
is `reflect.Struct`.  A struct value runs the field loop of
`validateFields` to completion; a pointer (nil or not) has
`Kind() == Pointer` and panics; the nil interface gives the zero
`reflect.Value` and panics. -/
def Validate (r : RSSElementRef) : Except String (Bool × List Err) :=
  match r with
  | .val v => .ok (validateFields v)
  | .ptr _ => .error "reflect: call of reflect.Value.NumField on ptr Value"
  | .nilInterface => .error "reflect: call of reflect.Value.NumField on zero Value"

/-- `func (r RSS) IsValid() (bool, []error) { return Validate(r) }`:
the receiver is the `RSS` struct value. -/
def RSS.IsValid (r : RSS) : Except String (Bool × List Err) := Validate (.val (.rss r))

/-- The condition of `Item.IsValid`'s first block, literally:
`(r.Title == nil || string(r.Title.CharData) == "") && (r.Description == nil || string(r.Description.CharData) == "")`. -/
def titleDescMissing (r : Item) : Bool :=
  (match r.title with
   | none => true
   | some t => t.charData == "") &&
  (match r.description with
   | none => true
   | some d => d.charData == "")

/-- `Item.IsValid`: the title/description disjunction rule, then
`Validate(r)` over the sub-element fields (an `Item` value is a
struct, so the inner `Validate` call cannot hit the non-struct panic
and contributes exactly its field loop). -/
def Item.IsValid (r : Item) : Bool × List Err :=
  let acc := chk (true, []) (!titleDescMissing r) ⟨.invalidElement, .elemInvalid r.xmlName⟩
  sub acc (validateFields (.item r))

/-- `TextInput.IsValid`: the four-sub-elements-present rule, then
`Validate(r)` over the fields. -/
def TextInput.IsValid (r : TextInput) : Bool × List Err :=
  let acc := chk (true, [])
    (r.title.isSome && r.description.isSome && r.name.isSome && r.link.isSome)
    ⟨.invalidElement, .elemInvalid r.xmlName⟩
  sub acc (validateFields (.textInput r))

/-- The `IsValid() (bool, []error)` method of each implementer.
`RSS.IsValid` returns `Validate(r)`, and an `RSS` value is a struct,
so the pair it returns is the field loop of the value. -/
def elemIsValid : RSSElementVal → Bool × List Err
  | .rss r => validateFields (.rss r)
  | .title r => Title.IsValid r
  | .link r => Link.IsValid r
  | .description r => Description.IsValid r
  | .pubDate r => PubDate.IsValid r
  | .lastBuildDate r => LastBuildDate.IsValid r
  | .category r => Category.IsValid r
  | .cloud r => Cloud.IsValid r
  | .ttl r => TTL.IsValid r
  | .image r => Image.IsValid r
  | .textInput r => TextInput.IsValid r
  | .name r => Name.IsValid r
  | .item r => Item.IsValid r
  | .source r => Source.IsValid r
  | .enclosure r => Enclosure.IsValid r
  | .guid r => GUID.IsValid r
  | .comments r => Comments.IsValid r
  | .author r => Author.IsValid r

/-! ## Serialization adapter (spec §4.3)

The XML tokenizer/serializer is an external collaborator (`encoding/xml`,
spec §1 and §4.3); the repository contributes only the struct tags.
The fragment of the adapter needed below is modelled from the spec for
the two elements with repeatable children, `SkipDays` and `SkipHours`,
using the tag names of the source structs — in particular the `Day`
children of `SkipDays` carry the tag `"hour"`. -/

/-- Modelled from the spec: one node of the external collaborator's
document tree — tag name, attributes, character data, children. -/
inductive XmlNode where
  | elem (name : String) (attrs : List (String × String)) (chardata : String)
      (children : List XmlNode)

/-- Modelled from the spec: rendering `SkipDays` — the element name is
the `XMLName` field's tag `"skipDays"`; each non-nil `*Day` entry is
rendered under the field's tag `"hour"`; nil entries are absent and
never emitted (§4.3). -/
def renderSkipDays (r : SkipDays) : XmlNode :=
  .elem "skipDays" [] "" (r.day.filterMap (fun d => d.map (fun s => .elem "hour" [] s [])))

/-- Modelled from the spec: unmarshaling selects the children whose
tag matches the `Day` field's tag `"hour"`; other children are
ignored. -/
def pickDayChild : XmlNode → Option (Option Day)
  | .elem cn _ cd _ => if cn = "hour" then some (some cd) else none

/-- Modelled from the spec: parsing a `SkipDays` element — the name
must be the struct tag `"skipDays"`, and `XMLName` is filled with it. -/
def parseSkipDays (x : XmlNode) : Option SkipDays :=
  match x with
  | .elem n _ _ ch =>
    if n = "skipDays" then some ⟨"skipDays", ch.filterMap pickDayChild⟩ else none

/-- Modelled from the spec: rendering `SkipHours`; each non-nil
`*Hour` entry is rendered in decimal under the tag `"hour"`. -/
def renderSkipHours (r : SkipHours) : XmlNode :=
  .elem "skipHours" [] ""
    (r.hour.filterMap (fun h => h.map (fun v => .elem "hour" [] (intToDecimal v) [])))

/-- Modelled from the spec: the character data of the children tagged
`"hour"`. -/
def pickHourChild : XmlNode → Option String
  | .elem cn _ cd _ => if cn = "hour" then some cd else none

/-- Modelled from the spec: decimal parsing of every `Hour` child; a
child that fails `strconv.ParseInt` fails the whole unmarshal. -/
def parseHourVals : List String → Option (List Int)
  | [] => some []
  | s :: rest =>
    match decimalToInt? s, parseHourVals rest with
    | some v, some vs => some (v :: vs)
    | _, _ => none

/-- Modelled from the spec: parsing a `SkipHours` element. -/
def parseSkipHours (x : XmlNode) : Option SkipHours :=
  match x with
  | .elem n _ _ ch =>
    if n = "skipHours" then
      (parseHourVals (ch.filterMap pickHourChild)).map (fun vs => ⟨"skipHours", vs.map some⟩)
    else none


/-! ### The adapter for the remaining element kinds

Modelled from the spec (§4.3) and the struct tags of the source:
sub-element and attribute names come from the tags; `Absent` fields
(nil pointers, and strings under `omitempty`) are never emitted and
parse back to absent; present fields always appear.  Struct-typed
sub-elements are always emitted (the `omitempty` option has no effect
on struct values), and unmarshaling fills each `XMLName` field with
the tag actually read. -/

/-- Modelled from the spec: a node's element name. -/
def nodeName : XmlNode → String
  | .elem n _ _ _ => n

/-- Modelled from the spec: a node's character data. -/
def chardataOf : XmlNode → String
  | .elem _ _ cd _ => cd

/-- Modelled from the spec: attribute lookup by name. -/
def findAttr : List (String × String) → String → Option String
  | [], _ => none
  | (k, v) :: rest, n => if k = n then some v else findAttr rest n

/-- Modelled from the spec: first child element with the given name. -/
def findChild : List XmlNode → String → Option XmlNode
  | [], _ => none
  | c :: rest, n => if nodeName c = n then some c else findChild rest n

/-- Modelled from the spec: a `*string` attribute — nil pointers are
skipped by the marshaler, present values (empty included) are
written. -/
def optAttr (tag : String) : Option String → List (String × String)
  | none => []
  | some v => [(tag, v)]

/-- Modelled from the spec: a pointer sub-element — nil pointers are
skipped, present values are rendered. -/
def optNode (f : α → XmlNode) : Option α → List XmlNode
  | none => []
  | some v => [f v]

/-- Modelled from the spec: a plain-string sub-element under
`omitempty` — omitted exactly when the string is empty. -/
def optStr (tag s : String) : List XmlNode :=
  if s == "" then [] else [.elem tag [] s []]

/-- Modelled from the spec: reading a plain-string sub-element — a
missing element leaves the zero value `""`. -/
def strField (ch : List XmlNode) (tag : String) : String :=
  match findChild ch tag with
  | some c => chardataOf c
  | none => ""

/-- Modelled from the spec: reading a struct sub-element — a missing
element leaves the zero struct. -/
def parseChild (ch : List XmlNode) (tag : String) (f : XmlNode → Option α)
    (dflt : α) : Option α :=
  match findChild ch tag with
  | none => some dflt
  | some c => f c

/-- Modelled from the spec: reading a pointer sub-element — a missing
element leaves the nil pointer. -/
def parseOptChild (ch : List XmlNode) (tag : String) (f : XmlNode → Option α) :
    Option (Option α) :=
  match findChild ch tag with
  | none => some none
  | some c => (f c).map some

/-- Modelled from the spec: rendering `<title>`. -/
def renderTitle (r : Title) : XmlNode := .elem "title" [] r.charData []

/-- Modelled from the spec: parsing `<title>`. -/
def parseTitle (x : XmlNode) : Option Title :=
  match x with
  | .elem n _ cd _ => if n = "title" then some ⟨"title", cd⟩ else none

/-- The tree is well-formed at this node: the required `XMLName` field
carries the fixed tag. -/
def wfTitle (r : Title) : Bool := r.xmlName == "title"

/-- Modelled from the spec: rendering `<link>`. -/
def renderLink (r : Link) : XmlNode := .elem "link" [] r.charData []

/-- Modelled from the spec: parsing `<link>`. -/
def parseLink (x : XmlNode) : Option Link :=
  match x with
  | .elem n _ cd _ => if n = "link" then some ⟨"link", cd⟩ else none

/-- Well-formedness of a `Link` node. -/
def wfLink (r : Link) : Bool := r.xmlName == "link"

/-- Modelled from the spec: rendering `<description>`. -/
def renderDescription (r : Description) : XmlNode := .elem "description" [] r.charData []

/-- Modelled from the spec: parsing `<description>`. -/
def parseDescription (x : XmlNode) : Option Description :=
  match x with
  | .elem n _ cd _ => if n = "description" then some ⟨"description", cd⟩ else none

/-- Well-formedness of a `Description` node. -/
def wfDescription (r : Description) : Bool := r.xmlName == "description"

/-- Modelled from the spec: rendering `<pubDate>`. -/
def renderPubDate (r : PubDate) : XmlNode := .elem "pubDate" [] r.charData []

/-- Modelled from the spec: parsing `<pubDate>`. -/
def parsePubDate (x : XmlNode) : Option PubDate :=
  match x with
  | .elem n _ cd _ => if n = "pubDate" then some ⟨"pubDate", cd⟩ else none

/-- Well-formedness of a `PubDate` node. -/
def wfPubDate (r : PubDate) : Bool := r.xmlName == "pubDate"

/-- Modelled from the spec: rendering `<lastBuildDate>`. -/
def renderLastBuildDate (r : LastBuildDate) : XmlNode :=
  .elem "lastBuildDate" [] r.charData []

/-- Modelled from the spec: parsing `<lastBuildDate>`. -/
def parseLastBuildDate (x : XmlNode) : Option LastBuildDate :=
  match x with
  | .elem n _ cd _ => if n = "lastBuildDate" then some ⟨"lastBuildDate", cd⟩ else none

/-- Well-formedness of a `LastBuildDate` node. -/
def wfLastBuildDate (r : LastBuildDate) : Bool := r.xmlName == "lastBuildDate"

/-- Modelled from the spec: rendering `<ttl>`. -/
def renderTTL (r : TTL) : XmlNode := .elem "ttl" [] r.charData []

/-- Modelled from the spec: parsing `<ttl>`. -/
def parseTTL (x : XmlNode) : Option TTL :=
  match x with
  | .elem n _ cd _ => if n = "ttl" then some ⟨"ttl", cd⟩ else none

/-- Well-formedness of a `TTL` node. -/
def wfTTL (r : TTL) : Bool := r.xmlName == "ttl"

/-- Modelled from the spec: rendering `<name>`. -/
def renderName (r : Name) : XmlNode := .elem "name" [] r.charData []

/-- Modelled from the spec: parsing `<name>`. -/
def parseName (x : XmlNode) : Option Name :=
  match x with
  | .elem n _ cd _ => if n = "name" then some ⟨"name", cd⟩ else none

/-- Well-formedness of a `Name` node. -/
def wfName (r : Name) : Bool := r.xmlName == "name"

/-- Modelled from the spec: rendering `<comments>`. -/
def renderComments (r : Comments) : XmlNode := .elem "comments" [] r.charData []

/-- Modelled from the spec: parsing `<comments>`. -/
def parseComments (x : XmlNode) : Option Comments :=
  match x with
  | .elem n _ cd _ => if n = "comments" then some ⟨"comments", cd⟩ else none

/-- Well-formedness of a `Comments` node. -/
def wfComments (r : Comments) : Bool := r.xmlName == "comments"

/-- Modelled from the spec: rendering `<author>`. -/
def renderAuthor (r : Author) : XmlNode := .elem "author" [] r.charData []

/-- Modelled from the spec: parsing `<author>`. -/
def parseAuthor (x : XmlNode) : Option Author :=
  match x with
  | .elem n _ cd _ => if n = "author" then some ⟨"author", cd⟩ else none

/-- Well-formedness of an `Author` node. -/
def wfAuthor (r : Author) : Bool := r.xmlName == "author"

/-- Modelled from the spec: rendering `<category>` with its optional
`domain` attribute. -/
def renderCategory (r : Category) : XmlNode :=
  .elem "category" (optAttr "domain" r.domain) r.charData []

/-- Modelled from the spec: parsing `<category>`. -/
def parseCategory (x : XmlNode) : Option Category :=
  match x with
  | .elem n attrs cd _ =>
    if n = "category" then some ⟨"category", cd, findAttr attrs "domain"⟩ else none

/-- Well-formedness of a `Category` node. -/
def wfCategory (r : Category) : Bool := r.xmlName == "category"

/-- Modelled from the spec: rendering `<cloud>` — attributes in
declared order, nil attributes skipped. -/
def renderCloud (r : Cloud) : XmlNode :=
  .elem "cloud"
    (optAttr "domain" r.domain ++ optAttr "port" r.port ++ optAttr "path" r.path ++
      optAttr "registerProcedure" r.registerProcedure ++ optAttr "protocol" r.protocol)
    r.charData []

/-- Modelled from the spec: parsing `<cloud>`. -/
def parseCloud (x : XmlNode) : Option Cloud :=
  match x with
  | .elem n attrs cd _ =>
    if n = "cloud" then
      some ⟨"cloud", cd, findAttr attrs "domain", findAttr attrs "port",
        findAttr attrs "path", findAttr attrs "registerProcedure",
        findAttr attrs "protocol"⟩
    else none

/-- Well-formedness of a `Cloud` node. -/
def wfCloud (r : Cloud) : Bool := r.xmlName == "cloud"

/-- Modelled from the spec: rendering `<source>` with its `url`
attribute. -/
def renderSource (r : Source) : XmlNode :=
  .elem "source" (optAttr "url" r.url) r.charData []

/-- Modelled from the spec: parsing `<source>`. -/
def parseSource (x : XmlNode) : Option Source :=
  match x with
  | .elem n attrs cd _ =>
    if n = "source" then some ⟨"source", cd, findAttr attrs "url"⟩ else none

/-- Well-formedness of a `Source` node. -/
def wfSource (r : Source) : Bool := r.xmlName == "source"

/-- Modelled from the spec: rendering `<enclosure>` with its `url`,
`length` and `type` attributes. -/
def renderEnclosure (r : Enclosure) : XmlNode :=
  .elem "enclosure"
    (optAttr "url" r.url ++ optAttr "length" r.length ++ optAttr "type" r.typ)
    r.charData []

/-- Modelled from the spec: parsing `<enclosure>`. -/
def parseEnclosure (x : XmlNode) : Option Enclosure :=
  match x with
  | .elem n attrs cd _ =>
    if n = "enclosure" then
      some ⟨"enclosure", cd, findAttr attrs "url", findAttr attrs "length",
        findAttr attrs "type"⟩
    else none

/-- Well-formedness of an `Enclosure` node. -/
def wfEnclosure (r : Enclosure) : Bool := r.xmlName == "enclosure"

/-- Modelled from the spec: rendering `<guid>` with its optional
`isPermaLink` attribute. -/
def renderGUID (r : GUID) : XmlNode :=
  .elem "guid" (optAttr "isPermaLink" r.isPermaLink) r.charData []

/-- Modelled from the spec: parsing `<guid>`. -/
def parseGUID (x : XmlNode) : Option GUID :=
  match x with
  | .elem n attrs cd _ =>
    if n = "guid" then some ⟨"guid", cd, findAttr attrs "isPermaLink"⟩ else none

/-- Well-formedness of a `GUID` node. -/
def wfGUID (r : GUID) : Bool := r.xmlName == "guid"

/-- Modelled from the spec: rendering `<image>` — the `*string` `url`
sub-element is skipped when nil; `title`, `link` and `description`
are struct fields and always rendered; `width`/`height` are
`omitempty` strings. -/
def imageChildren (r : Image) : List XmlNode :=
  optNode (fun u => .elem "url" [] u []) r.url ++
    [renderTitle r.title, renderLink r.link] ++
    optStr "width" r.width ++ optStr "height" r.height ++
    [renderDescription r.description]

/-- Modelled from the spec: rendering `<image>`, see `imageChildren`. -/
def renderImage (r : Image) : XmlNode := .elem "image" [] "" (imageChildren r)

/-- Modelled from the spec: parsing `<image>`. -/
def parseImage (x : XmlNode) : Option Image :=
  match x with
  | .elem n _ _ ch =>
    if n = "image" then
      match parseChild ch "title" parseTitle ⟨"", ""⟩,
          parseChild ch "link" parseLink ⟨"", ""⟩,
          parseChild ch "description" parseDescription ⟨"", ""⟩ with
      | some t, some l, some d =>
        some ⟨"image", (findChild ch "url").map chardataOf, t, l,
          strField ch "width", strField ch "height", d⟩
      | _, _, _ => none
    else none

/-- Well-formedness of an `Image` node: the fixed tag plus
well-formedness of the struct sub-elements (which are always
present). -/
def wfImage (r : Image) : Bool :=
  r.xmlName == "image" && wfTitle r.title && wfLink r.link && wfDescription r.description

/-- `o` is absent, or present and well-formed. -/
def optWf (f : α → Bool) : Option α → Bool
  | none => true
  | some v => f v

/-- Modelled from the spec: rendering `<textInput>` — four pointer
sub-elements, nil ones skipped. -/
def textInputChildren (r : TextInput) : List XmlNode :=
  optNode renderTitle r.title ++ optNode renderDescription r.description ++
    optNode renderName r.name ++ optNode renderLink r.link

/-- Modelled from the spec: rendering `<textInput>`, see
`textInputChildren`. -/
def renderTextInput (r : TextInput) : XmlNode :=
  .elem "textInput" [] "" (textInputChildren r)

/-- Modelled from the spec: parsing `<textInput>`. -/
def parseTextInput (x : XmlNode) : Option TextInput :=
  match x with
  | .elem n _ _ ch =>
    if n = "textInput" then
      match parseOptChild ch "title" parseTitle,
          parseOptChild ch "description" parseDescription,
          parseOptChild ch "name" parseName,
          parseOptChild ch "link" parseLink with
      | some t, some d, some na, some l => some ⟨"textInput", t, d, na, l⟩
      | _, _, _, _ => none
    else none

/-- Well-formedness of a `TextInput` node. -/
def wfTextInput (r : TextInput) : Bool :=
  r.xmlName == "textInput" && optWf wfTitle r.title &&
    optWf wfDescription r.description && optWf wfName r.name && optWf wfLink r.link

/-- Modelled from the spec: rendering `<item>` — ten pointer
sub-elements in declared order, nil ones skipped. -/
def itemChildren (r : Item) : List XmlNode :=
  optNode renderTitle r.title ++ optNode renderLink r.link ++
    optNode renderDescription r.description ++ optNode renderSource r.source ++
    optNode renderEnclosure r.enclosure ++ optNode renderCategory r.category ++
    optNode renderPubDate r.pubDate ++ optNode renderGUID r.guid ++
    optNode renderComments r.comments ++ optNode renderAuthor r.author

/-- Modelled from the spec: rendering `<item>`, see `itemChildren`. -/
def renderItem (r : Item) : XmlNode := .elem "item" [] "" (itemChildren r)

/-- Modelled from the spec: parsing `<item>`. -/
def parseItem (x : XmlNode) : Option Item :=
  match x with
  | .elem n _ _ ch =>
    if n = "item" then
      match parseOptChild ch "title" parseTitle,
          parseOptChild ch "link" parseLink,
          parseOptChild ch "description" parseDescription,
          parseOptChild ch "source" parseSource,
          parseOptChild ch "enclosure" parseEnclosure with
      | some t, some l, some d, some s, some e =>
        match parseOptChild ch "category" parseCategory,
            parseOptChild ch "pubDate" parsePubDate,
            parseOptChild ch "guid" parseGUID,
            parseOptChild ch "comments" parseComments,
            parseOptChild ch "author" parseAuthor with
        | some c, some p, some g, some cm, some a =>
          some ⟨"item", t, l, d, s, e, c, p, g, cm, a⟩
        | _, _, _, _, _ => none
      | _, _, _, _, _ => none
    else none

/-- Well-formedness of an `Item` node. -/
def wfItem (r : Item) : Bool :=
  r.xmlName == "item" && optWf wfTitle r.title && optWf wfLink r.link &&
    optWf wfDescription r.description && optWf wfSource r.source &&
    optWf wfEnclosure r.enclosure && optWf wfCategory r.category &&
    optWf wfPubDate r.pubDate && optWf wfGUID r.guid &&
    optWf wfComments r.comments && optWf wfAuthor r.author

/-- Well-formedness of a `SkipHours` node: the fixed tag and no nil
`*Hour` entries (a nil entry is absent and would not be re-created by
parsing). -/
def wfSkipHours (r : SkipHours) : Bool :=
  r.xmlName == "skipHours" && r.hour.all Option.isSome

/-- Well-formedness of a `SkipDays` node. -/
def wfSkipDays (r : SkipDays) : Bool :=
  r.xmlName == "skipDays" && r.day.all Option.isSome

/-- Modelled from the spec: rendering the `<item>` children of a
channel — nil entries skipped. -/
def renderItems (l : List (Option Item)) : List XmlNode :=
  l.filterMap (fun o => o.map renderItem)

/-- Modelled from the spec: collecting and parsing every `<item>`
child in order; one failing item fails the unmarshal. -/
def parseItemList : List XmlNode → Option (List (Option Item))
  | [] => some []
  | c :: rest =>
    if nodeName c == "item" then
      match parseItem c, parseItemList rest with
      | some it, some l => some (some it :: l)
      | _, _ => none
    else parseItemList rest

/-- Modelled from the spec: rendering `<channel>` — children in
declared field order; the struct sub-elements are always emitted
(`omitempty` never omits a struct), the plain-string sub-elements are
emitted when non-empty, the items at the end. -/
def channelChildren (r : Channel) : List XmlNode :=
  [renderTitle r.title, renderLink r.link, renderDescription r.description] ++
    optStr "language" r.language ++ optStr "copyright" r.copyright ++
    optStr "managingEditor" r.managingEditor ++ optStr "webMaster" r.webMaster ++
    [renderPubDate r.pubDate, renderLastBuildDate r.lastBuildDate,
      renderCategory r.category] ++
    optStr "generator" r.generator ++ optStr "docs" r.docs ++
    [renderCloud r.cloud, renderTTL r.ttl, renderImage r.image] ++
    optStr "rating" r.rating ++
    [renderTextInput r.textInput, renderSkipHours r.skipHours,
      renderSkipDays r.skipDays] ++
    renderItems r.item

/-- Modelled from the spec: rendering `<channel>`, see
`channelChildren`. -/
def renderChannel (r : Channel) : XmlNode := .elem "channel" [] "" (channelChildren r)

/-- Modelled from the spec: parsing `<channel>`. -/
def parseChannel (x : XmlNode) : Option Channel :=
  match x with
  | .elem n _ _ ch =>
    if n = "channel" then
      match parseChild ch "title" parseTitle ⟨"", ""⟩,
          parseChild ch "link" parseLink ⟨"", ""⟩,
          parseChild ch "description" parseDescription ⟨"", ""⟩,
          parseChild ch "pubDate" parsePubDate ⟨"", ""⟩,
          parseChild ch "lastBuildDate" parseLastBuildDate ⟨"", ""⟩,
          parseChild ch "category" parseCategory ⟨"", "", none⟩ with
      | some t, some l, some d, some pd, some lbd, some cat =>
        match parseChild ch "cloud" parseCloud ⟨"", "", none, none, none, none, none⟩,
            parseChild ch "ttl" parseTTL ⟨"", ""⟩,
            parseChild ch "image" parseImage
              ⟨"", none, ⟨"", ""⟩, ⟨"", ""⟩, "", "", ⟨"", ""⟩⟩,
            parseChild ch "textInput" parseTextInput ⟨"", none, none, none, none⟩,
            parseChild ch "skipHours" parseSkipHours ⟨"", []⟩,
            parseChild ch "skipDays" parseSkipDays ⟨"", []⟩,
            parseItemList ch with
        | some cl, some tt, some im, some ti, some sh, some sd, some items =>
          some ⟨"channel", t, l, d, strField ch "language", strField ch "copyright",
            strField ch "managingEditor", strField ch "webMaster", pd, lbd, cat,
            strField ch "generator", strField ch "docs", cl, tt, im,
            strField ch "rating", ti, sh, sd, items⟩
        | _, _, _, _, _, _, _ => none
      | _, _, _, _, _, _ => none
    else none

/-- Well-formedness of a `Channel` node: the fixed tag, well-formed
struct sub-elements, and no nil `*Item` entries. -/
def wfChannel (r : Channel) : Bool :=
  r.xmlName == "channel" && wfTitle r.title && wfLink r.link &&
    wfDescription r.description && wfPubDate r.pubDate &&
    wfLastBuildDate r.lastBuildDate && wfCategory r.category && wfCloud r.cloud &&
    wfTTL r.ttl && wfImage r.image && wfTextInput r.textInput &&
    wfSkipHours r.skipHours && wfSkipDays r.skipDays &&
    r.item.all (fun o =>
      match o with
      | some it => wfItem it
      | none => false)

/-- Modelled from the spec: rendering `<rss>` — the `version`
attribute (a plain string, always written) and the optional
`*Channel`. -/
def renderRSS (r : RSS) : XmlNode :=
  .elem "rss" [("version", r.version)] "" (optNode renderChannel r.channel)

/-- Modelled from the spec: parsing `<rss>`. -/
def parseRSS (x : XmlNode) : Option RSS :=
  match x with
  | .elem n attrs _ ch =>
    if n = "rss" then
      match parseOptChild ch "channel" parseChannel with
      | some c => some ⟨"rss", (findAttr attrs "version").getD "", c⟩
      | none => none
    else none

/-- Well-formedness of an `RSS` document tree. -/
def wfRSS (r : RSS) : Bool :=
  r.xmlName == "rss" && optWf wfChannel r.channel


/-! ### Child-lookup lemmas for the adapter -/

/-- The first of two lookup results, as produced by searching the two
halves of an appended child list. -/
def firstChild : Option XmlNode → Option XmlNode → Option XmlNode
  | some c, _ => some c
  | none, b => b

theorem firstChild_none_right (a : Option XmlNode) : firstChild a none = a := by
  cases a <;> rfl

theorem firstChild_some (c : XmlNode) (b : Option XmlNode) :
    firstChild (some c) b = some c := rfl

theorem firstChild_none (b : Option XmlNode) : firstChild none b = b := rfl

theorem findChild_append (a b : List XmlNode) (n : String) :
    findChild (a ++ b) n = firstChild (findChild a n) (findChild b n) := by
  induction a with
  | nil => rfl
  | cons c rest ih =>
    by_cases h : nodeName c = n <;> simp [findChild, firstChild, h, ih]

theorem findChild_optStr (tag s n : String) :
    findChild (optStr tag s) n =
      if s == "" then none else if tag = n then some (.elem tag [] s []) else none := by
  unfold optStr
  cases hc : s == "" <;> simp [findChild, nodeName]

theorem findChild_optNode {f : α → XmlNode} (τ : String)
    (hf : ∀ v, nodeName (f v) = τ) (o : Option α) (n : String) :
    findChild (optNode f o) n = if τ = n then o.map f else none := by
  cases o with
  | none => simp [optNode, findChild]
  | some v =>
    by_cases h : τ = n <;> simp [optNode, findChild, hf v, h]

theorem findChild_optTitle (o : Option Title) (n : String) :
    findChild (optNode renderTitle o) n =
      if "title" = n then o.map renderTitle else none :=
  @findChild_optNode Title renderTitle "title" (fun _ => rfl) o n

theorem findChild_optLink (o : Option Link) (n : String) :
    findChild (optNode renderLink o) n =
      if "link" = n then o.map renderLink else none :=
  @findChild_optNode Link renderLink "link" (fun _ => rfl) o n

theorem findChild_optDescription (o : Option Description) (n : String) :
    findChild (optNode renderDescription o) n =
      if "description" = n then o.map renderDescription else none :=
  @findChild_optNode Description renderDescription "description" (fun _ => rfl) o n

theorem findChild_optName (o : Option Name) (n : String) :
    findChild (optNode renderName o) n =
      if "name" = n then o.map renderName else none :=
  @findChild_optNode Name renderName "name" (fun _ => rfl) o n

theorem findChild_optSource (o : Option Source) (n : String) :
    findChild (optNode renderSource o) n =
      if "source" = n then o.map renderSource else none :=
  @findChild_optNode Source renderSource "source" (fun _ => rfl) o n

theorem findChild_optEnclosure (o : Option Enclosure) (n : String) :
    findChild (optNode renderEnclosure o) n =
      if "enclosure" = n then o.map renderEnclosure else none :=
  @findChild_optNode Enclosure renderEnclosure "enclosure" (fun _ => rfl) o n

theorem findChild_optCategory (o : Option Category) (n : String) :
    findChild (optNode renderCategory o) n =
      if "category" = n then o.map renderCategory else none :=
  @findChild_optNode Category renderCategory "category" (fun _ => rfl) o n

theorem findChild_optPubDate (o : Option PubDate) (n : String) :
    findChild (optNode renderPubDate o) n =
      if "pubDate" = n then o.map renderPubDate else none :=
  @findChild_optNode PubDate renderPubDate "pubDate" (fun _ => rfl) o n

theorem findChild_optGUID (o : Option GUID) (n : String) :
    findChild (optNode renderGUID o) n =
      if "guid" = n then o.map renderGUID else none :=
  @findChild_optNode GUID renderGUID "guid" (fun _ => rfl) o n

theorem findChild_optComments (o : Option Comments) (n : String) :
    findChild (optNode renderComments o) n =
      if "comments" = n then o.map renderComments else none :=
  @findChild_optNode Comments renderComments "comments" (fun _ => rfl) o n

theorem findChild_optAuthor (o : Option Author) (n : String) :
    findChild (optNode renderAuthor o) n =
      if "author" = n then o.map renderAuthor else none :=
  @findChild_optNode Author renderAuthor "author" (fun _ => rfl) o n

theorem findChild_optUrl (o : Option String) (n : String) :
    findChild (optNode (fun u => XmlNode.elem "url" [] u []) o) n =
      if "url" = n then o.map (fun u => XmlNode.elem "url" [] u []) else none :=
  @findChild_optNode String (fun u => XmlNode.elem "url" [] u []) "url" (fun _ => rfl) o n

theorem findChild_optChannel (o : Option Channel) (n : String) :
    findChild (optNode renderChannel o) n =
      if "channel" = n then o.map renderChannel else none :=
  @findChild_optNode Channel renderChannel "channel" (fun _ => rfl) o n

theorem parseChild_roundtrip {f : XmlNode → Option α} {nd : XmlNode} {v : α}
    (dflt : α) (hfind : findChild ch tag = some nd) (hparse : f nd = some v) :
    parseChild ch tag f dflt = some v := by
  unfold parseChild
  rw [hfind]
  exact hparse

theorem parseOptChild_roundtrip {f : XmlNode → Option α} {g : α → XmlNode}
    {o : Option α} (hfind : findChild ch tag = o.map g)
    (hsome : ∀ v, o = some v → f (g v) = some v) :
    parseOptChild ch tag f = some o := by
  unfold parseOptChild
  rw [hfind]
  cases o with
  | none => rfl
  | some v => simp [hsome v rfl]

theorem strField_eq {ch : List XmlNode} {tag s : String}
    (hfind : findChild ch tag =
      if s == "" then none else some (XmlNode.elem tag [] s [])) :
    strField ch tag = s := by
  unfold strField
  rw [hfind]
  cases hc : s == "" <;> simp [hc, chardataOf]
  exact (by simpa using hc : s = "").symm

theorem parseItemList_cons_skip {c : XmlNode} {rest : List XmlNode}
    (h : (nodeName c == "item") = false) :
    parseItemList (c :: rest) = parseItemList rest := by
  simp [parseItemList, h]

theorem parseItemList_optStr_skip {tag : String} (h : ¬tag = "item") (s : String)
    (b : List XmlNode) : parseItemList (optStr tag s ++ b) = parseItemList b := by
  unfold optStr
  cases hc : s == "" <;> simp [parseItemList, nodeName, h]


/-! ## Round-trip and cardinality lemmas -/

theorem day_children_roundtrip (l : List (Option Day))
    (h : l.all Option.isSome = true) :
    (l.filterMap (fun d => d.map (fun s => XmlNode.elem "hour" [] s []))).filterMap
      pickDayChild = l := by
  induction l with
  | nil => rfl
  | cons d t ih =>
    simp only [List.all_cons, Bool.and_eq_true] at h
    cases d with
    | none => simp at h
    | some s => simp [pickDayChild, ih h.2]

theorem hour_children_roundtrip (l : List (Option Int))
    (h : l.all Option.isSome = true) :
    ∃ vs : List Int,
      parseHourVals ((l.filterMap (fun o => o.map
        (fun v => XmlNode.elem "hour" [] (intToDecimal v) []))).filterMap
        pickHourChild) = some vs ∧ vs.map some = l := by
  induction l with
  | nil => exact ⟨[], rfl, rfl⟩
  | cons o t ih =>
    simp only [List.all_cons, Bool.and_eq_true] at h
    cases o with
    | none => simp at h
    | some v =>
      obtain ⟨vs, hvs, hmap⟩ := ih h.2
      refine ⟨v :: vs, ?_, by simp [hmap]⟩
      simp [pickHourChild, parseHourVals, decimalToInt_intToDecimal, hvs]

theorem hoursValid_ok (l : List (Option Int))
    (h : l.all (fun o =>
      match o with
      | some v => decide (0 ≤ v ∧ v ≤ 23)
      | none => false) = true) :
    hoursValid l = .ok true := by
  induction l with
  | nil => rfl
  | cons o t ih =>
    simp only [List.all_cons, Bool.and_eq_true] at h
    cases o with
    | none => simp at h
    | some v =>
      have hv : (0 : Int) ≤ v ∧ v ≤ 23 := of_decide_eq_true h.1
      obtain ⟨hv1, hv2⟩ := hv
      have hiv : Hour.IsValid v = true := by
        have hv2i : (v : Int) ≤ (23 : Int) := hv2
        have hv1i : (0 : Int) ≤ (v : Int) := hv1
        have hno : ¬(v < 0 ∨ 23 < v) := by omega
        simp only [Hour.IsValid]
        simp [hno]
      simp [hoursValid, hiv, ih h.2]

/-! ### Round-trip of the adapter, element by element -/

theorem optWf_some {f : α → Bool} {o : Option α} (h : optWf f o = true) :
    ∀ v, o = some v → f v = true := by
  intro v hv
  subst hv
  simpa [optWf] using h

theorem rtTitle (r : Title) (h : wfTitle r = true) :
    parseTitle (renderTitle r) = some r := by
  rcases r with ⟨n, cd⟩
  simp [wfTitle] at h
  subst h
  simp [renderTitle, parseTitle]

theorem rtLink (r : Link) (h : wfLink r = true) :
    parseLink (renderLink r) = some r := by
  rcases r with ⟨n, cd⟩
  simp [wfLink] at h
  subst h
  simp [renderLink, parseLink]

theorem rtDescription (r : Description) (h : wfDescription r = true) :
    parseDescription (renderDescription r) = some r := by
  rcases r with ⟨n, cd⟩
  simp [wfDescription] at h
  subst h
  simp [renderDescription, parseDescription]

theorem rtPubDate (r : PubDate) (h : wfPubDate r = true) :
    parsePubDate (renderPubDate r) = some r := by
  rcases r with ⟨n, cd⟩
  simp [wfPubDate] at h
  subst h
  simp [renderPubDate, parsePubDate]

theorem rtLastBuildDate (r : LastBuildDate) (h : wfLastBuildDate r = true) :
    parseLastBuildDate (renderLastBuildDate r) = some r := by
  rcases r with ⟨n, cd⟩
  simp [wfLastBuildDate] at h
  subst h
  simp [renderLastBuildDate, parseLastBuildDate]

theorem rtTTL (r : TTL) (h : wfTTL r = true) :
    parseTTL (renderTTL r) = some r := by
  rcases r with ⟨n, cd⟩
  simp [wfTTL] at h
  subst h
  simp [renderTTL, parseTTL]

theorem rtName (r : Name) (h : wfName r = true) :
    parseName (renderName r) = some r := by
  rcases r with ⟨n, cd⟩
  simp [wfName] at h
  subst h
  simp [renderName, parseName]

theorem rtComments (r : Comments) (h : wfComments r = true) :
    parseComments (renderComments r) = some r := by
  rcases r with ⟨n, cd⟩
  simp [wfComments] at h
  subst h
  simp [renderComments, parseComments]

theorem rtAuthor (r : Author) (h : wfAuthor r = true) :
    parseAuthor (renderAuthor r) = some r := by
  rcases r with ⟨n, cd⟩
  simp [wfAuthor] at h
  subst h
  simp [renderAuthor, parseAuthor]

theorem rtCategory (r : Category) (h : wfCategory r = true) :
    parseCategory (renderCategory r) = some r := by
  rcases r with ⟨n, cd, dom⟩
  simp [wfCategory] at h
  subst h
  cases dom <;> simp [renderCategory, parseCategory, optAttr, findAttr]

theorem rtCloud (r : Cloud) (h : wfCloud r = true) :
    parseCloud (renderCloud r) = some r := by
  rcases r with ⟨n, cd, dm, pt, pa, rp, pr⟩
  simp [wfCloud] at h
  subst h
  cases dm <;> cases pt <;> cases pa <;> cases rp <;> cases pr <;>
    simp [renderCloud, parseCloud, optAttr, findAttr]

theorem rtSource (r : Source) (h : wfSource r = true) :
    parseSource (renderSource r) = some r := by
  rcases r with ⟨n, cd, u⟩
  simp [wfSource] at h
  subst h
  cases u <;> simp [renderSource, parseSource, optAttr, findAttr]

theorem rtEnclosure (r : Enclosure) (h : wfEnclosure r = true) :
    parseEnclosure (renderEnclosure r) = some r := by
  rcases r with ⟨n, cd, u, le, ty⟩
  simp [wfEnclosure] at h
  subst h
  cases u <;> cases le <;> cases ty <;>
    simp [renderEnclosure, parseEnclosure, optAttr, findAttr]

theorem rtGUID (r : GUID) (h : wfGUID r = true) :
    parseGUID (renderGUID r) = some r := by
  rcases r with ⟨n, cd, ipl⟩
  simp [wfGUID] at h
  subst h
  cases ipl <;> simp [renderGUID, parseGUID, optAttr, findAttr]

theorem rtSkipHours (r : SkipHours) (h : wfSkipHours r = true) :
    parseSkipHours (renderSkipHours r) = some r := by
  rcases r with ⟨n, hl⟩
  simp only [wfSkipHours, Bool.and_eq_true, beq_iff_eq] at h
  obtain ⟨hn, hall⟩ := h
  subst hn
  obtain ⟨vs, hvs, hmap⟩ := hour_children_roundtrip hl hall
  simp [renderSkipHours, parseSkipHours, hvs, hmap]

theorem rtSkipDays (r : SkipDays) (h : wfSkipDays r = true) :
    parseSkipDays (renderSkipDays r) = some r := by
  rcases r with ⟨n, dl⟩
  simp only [wfSkipDays, Bool.and_eq_true, beq_iff_eq] at h
  obtain ⟨hn, hall⟩ := h
  subst hn
  simp [renderSkipDays, parseSkipDays, day_children_roundtrip dl hall]

theorem imageChildren_url (r : Image) :
    findChild (imageChildren r) "url" =
      r.url.map (fun u => XmlNode.elem "url" [] u []) := by
  simp [imageChildren, findChild_append, findChild_optUrl, findChild_optStr,
    findChild, nodeName, renderTitle, renderLink, renderDescription,
    firstChild_some, firstChild_none, firstChild_none_right]

theorem imageChildren_title (r : Image) :
    findChild (imageChildren r) "title" = some (renderTitle r.title) := by
  simp [imageChildren, findChild_append, findChild_optUrl, findChild_optStr,
    findChild, nodeName, renderTitle, renderLink, renderDescription,
    firstChild_some, firstChild_none, firstChild_none_right]

theorem imageChildren_link (r : Image) :
    findChild (imageChildren r) "link" = some (renderLink r.link) := by
  simp [imageChildren, findChild_append, findChild_optUrl, findChild_optStr,
    findChild, nodeName, renderTitle, renderLink, renderDescription,
    firstChild_some, firstChild_none, firstChild_none_right]

theorem imageChildren_width (r : Image) :
    findChild (imageChildren r) "width" =
      if r.width == "" then none else some (.elem "width" [] r.width []) := by
  simp [imageChildren, findChild_append, findChild_optUrl, findChild_optStr,
    findChild, nodeName, renderTitle, renderLink, renderDescription,
    firstChild_some, firstChild_none, firstChild_none_right]

theorem imageChildren_height (r : Image) :
    findChild (imageChildren r) "height" =
      if r.height == "" then none else some (.elem "height" [] r.height []) := by
  simp [imageChildren, findChild_append, findChild_optUrl, findChild_optStr,
    findChild, nodeName, renderTitle, renderLink, renderDescription,
    firstChild_some, firstChild_none, firstChild_none_right]

theorem imageChildren_description (r : Image) :
    findChild (imageChildren r) "description" = some (renderDescription r.description) := by
  simp [imageChildren, findChild_append, findChild_optUrl, findChild_optStr,
    findChild, nodeName, renderTitle, renderLink, renderDescription,
    firstChild_some, firstChild_none, firstChild_none_right]

theorem rtImage (r : Image) (h : wfImage r = true) :
    parseImage (renderImage r) = some r := by
  simp only [wfImage, Bool.and_eq_true, beq_iff_eq] at h
  obtain ⟨⟨⟨hx, hT⟩, hL⟩, hD⟩ := h
  have ht := parseChild_roundtrip (⟨"", ""⟩ : Title) (imageChildren_title r) (rtTitle r.title hT)
  have hl := parseChild_roundtrip (⟨"", ""⟩ : Link) (imageChildren_link r) (rtLink r.link hL)
  have hd := parseChild_roundtrip (⟨"", ""⟩ : Description) (imageChildren_description r)
    (rtDescription r.description hD)
  have hu : (findChild (imageChildren r) "url").map chardataOf = r.url := by
    rw [imageChildren_url]
    cases r.url <;> rfl
  have hw : strField (imageChildren r) "width" = r.width :=
    strField_eq (imageChildren_width r)
  have hhgt : strField (imageChildren r) "height" = r.height :=
    strField_eq (imageChildren_height r)
  simp [renderImage, parseImage, ht, hl, hd, hu, hw, hhgt, ← hx]

theorem textInputChildren_title (r : TextInput) :
    findChild (textInputChildren r) "title" = r.title.map renderTitle := by
  simp [textInputChildren, findChild_append, findChild_optTitle,
    findChild_optDescription, findChild_optName, findChild_optLink,
    firstChild_some, firstChild_none, firstChild_none_right, findChild]

theorem textInputChildren_description (r : TextInput) :
    findChild (textInputChildren r) "description" = r.description.map renderDescription := by
  simp [textInputChildren, findChild_append, findChild_optTitle,
    findChild_optDescription, findChild_optName, findChild_optLink,
    firstChild_some, firstChild_none, firstChild_none_right, findChild]

theorem textInputChildren_name (r : TextInput) :
    findChild (textInputChildren r) "name" = r.name.map renderName := by
  simp [textInputChildren, findChild_append, findChild_optTitle,
    findChild_optDescription, findChild_optName, findChild_optLink,
    firstChild_some, firstChild_none, firstChild_none_right, findChild]

theorem textInputChildren_link (r : TextInput) :
    findChild (textInputChildren r) "link" = r.link.map renderLink := by
  simp [textInputChildren, findChild_append, findChild_optTitle,
    findChild_optDescription, findChild_optName, findChild_optLink,
    firstChild_some, firstChild_none, firstChild_none_right, findChild]

theorem rtTextInput (r : TextInput) (h : wfTextInput r = true) :
    parseTextInput (renderTextInput r) = some r := by
  simp only [wfTextInput, Bool.and_eq_true, beq_iff_eq] at h
  obtain ⟨⟨⟨⟨hx, hT⟩, hD⟩, hN⟩, hL⟩ := h
  have ht := parseOptChild_roundtrip (textInputChildren_title r)
    (fun v hv => rtTitle v (optWf_some hT v hv))
  have hd := parseOptChild_roundtrip (textInputChildren_description r)
    (fun v hv => rtDescription v (optWf_some hD v hv))
  have hn := parseOptChild_roundtrip (textInputChildren_name r)
    (fun v hv => rtName v (optWf_some hN v hv))
  have hl := parseOptChild_roundtrip (textInputChildren_link r)
    (fun v hv => rtLink v (optWf_some hL v hv))
  simp [renderTextInput, parseTextInput, ht, hd, hn, hl, ← hx]


theorem itemChildren_title (r : Item) :
    findChild (itemChildren r) "title" = r.title.map renderTitle := by
  simp [itemChildren, findChild_append, findChild_optTitle, findChild_optLink,
    findChild_optDescription, findChild_optSource, findChild_optEnclosure,
    findChild_optCategory, findChild_optPubDate, findChild_optGUID,
    findChild_optComments, findChild_optAuthor, findChild,
    firstChild_some, firstChild_none, firstChild_none_right]

theorem itemChildren_link (r : Item) :
    findChild (itemChildren r) "link" = r.link.map renderLink := by
  simp [itemChildren, findChild_append, findChild_optTitle, findChild_optLink,
    findChild_optDescription, findChild_optSource, findChild_optEnclosure,
    findChild_optCategory, findChild_optPubDate, findChild_optGUID,
    findChild_optComments, findChild_optAuthor, findChild,
    firstChild_some, firstChild_none, firstChild_none_right]

theorem itemChildren_description (r : Item) :
    findChild (itemChildren r) "description" = r.description.map renderDescription := by
  simp [itemChildren, findChild_append, findChild_optTitle, findChild_optLink,
    findChild_optDescription, findChild_optSource, findChild_optEnclosure,
    findChild_optCategory, findChild_optPubDate, findChild_optGUID,
    findChild_optComments, findChild_optAuthor, findChild,
    firstChild_some, firstChild_none, firstChild_none_right]

theorem itemChildren_source (r : Item) :
    findChild (itemChildren r) "source" = r.source.map renderSource := by
  simp [itemChildren, findChild_append, findChild_optTitle, findChild_optLink,
    findChild_optDescription, findChild_optSource, findChild_optEnclosure,
    findChild_optCategory, findChild_optPubDate, findChild_optGUID,
    findChild_optComments, findChild_optAuthor, findChild,
    firstChild_some, firstChild_none, firstChild_none_right]

theorem itemChildren_enclosure (r : Item) :
    findChild (itemChildren r) "enclosure" = r.enclosure.map renderEnclosure := by
  simp [itemChildren, findChild_append, findChild_optTitle, findChild_optLink,
    findChild_optDescription, findChild_optSource, findChild_optEnclosure,
    findChild_optCategory, findChild_optPubDate, findChild_optGUID,
    findChild_optComments, findChild_optAuthor, findChild,
    firstChild_some, firstChild_none, firstChild_none_right]

theorem itemChildren_category (r : Item) :
    findChild (itemChildren r) "category" = r.category.map renderCategory := by
  simp [itemChildren, findChild_append, findChild_optTitle, findChild_optLink,
    findChild_optDescription, findChild_optSource, findChild_optEnclosure,
    findChild_optCategory, findChild_optPubDate, findChild_optGUID,
    findChild_optComments, findChild_optAuthor, findChild,
    firstChild_some, firstChild_none, firstChild_none_right]

theorem itemChildren_pubDate (r : Item) :
    findChild (itemChildren r) "pubDate" = r.pubDate.map renderPubDate := by
  simp [itemChildren, findChild_append, findChild_optTitle, findChild_optLink,
    findChild_optDescription, findChild_optSource, findChild_optEnclosure,
    findChild_optCategory, findChild_optPubDate, findChild_optGUID,
    findChild_optComments, findChild_optAuthor, findChild,
    firstChild_some, firstChild_none, firstChild_none_right]

theorem itemChildren_guid (r : Item) :
    findChild (itemChildren r) "guid" = r.guid.map renderGUID := by
  simp [itemChildren, findChild_append, findChild_optTitle, findChild_optLink,
    findChild_optDescription, findChild_optSource, findChild_optEnclosure,
    findChild_optCategory, findChild_optPubDate, findChild_optGUID,
    findChild_optComments, findChild_optAuthor, findChild,
    firstChild_some, firstChild_none, firstChild_none_right]

theorem itemChildren_comments (r : Item) :
    findChild (itemChildren r) "comments" = r.comments.map renderComments := by
  simp [itemChildren, findChild_append, findChild_optTitle, findChild_optLink,
    findChild_optDescription, findChild_optSource, findChild_optEnclosure,
    findChild_optCategory, findChild_optPubDate, findChild_optGUID,
    findChild_optComments, findChild_optAuthor, findChild,
    firstChild_some, firstChild_none, firstChild_none_right]

theorem itemChildren_author (r : Item) :
    findChild (itemChildren r) "author" = r.author.map renderAuthor := by
  simp [itemChildren, findChild_append, findChild_optTitle, findChild_optLink,
    findChild_optDescription, findChild_optSource, findChild_optEnclosure,
    findChild_optCategory, findChild_optPubDate, findChild_optGUID,
    findChild_optComments, findChild_optAuthor, findChild,
    firstChild_some, firstChild_none, firstChild_none_right]

theorem rtItem (r : Item) (h : wfItem r = true) :
    parseItem (renderItem r) = some r := by
  simp only [wfItem, Bool.and_eq_true, beq_iff_eq] at h
  obtain ⟨⟨⟨⟨⟨⟨⟨⟨⟨⟨hx, hT⟩, hL⟩, hD⟩, hS⟩, hE⟩, hC⟩, hP⟩, hG⟩, hCM⟩, hA⟩ := h
  have ht := parseOptChild_roundtrip (itemChildren_title r)
    (fun v hv => rtTitle v (optWf_some hT v hv))
  have hl := parseOptChild_roundtrip (itemChildren_link r)
    (fun v hv => rtLink v (optWf_some hL v hv))
  have hd := parseOptChild_roundtrip (itemChildren_description r)
    (fun v hv => rtDescription v (optWf_some hD v hv))
  have hs := parseOptChild_roundtrip (itemChildren_source r)
    (fun v hv => rtSource v (optWf_some hS v hv))
  have he := parseOptChild_roundtrip (itemChildren_enclosure r)
    (fun v hv => rtEnclosure v (optWf_some hE v hv))
  have hc := parseOptChild_roundtrip (itemChildren_category r)
    (fun v hv => rtCategory v (optWf_some hC v hv))
  have hp := parseOptChild_roundtrip (itemChildren_pubDate r)
    (fun v hv => rtPubDate v (optWf_some hP v hv))
  have hg := parseOptChild_roundtrip (itemChildren_guid r)
    (fun v hv => rtGUID v (optWf_some hG v hv))
  have hcm := parseOptChild_roundtrip (itemChildren_comments r)
    (fun v hv => rtComments v (optWf_some hCM v hv))
  have ha := parseOptChild_roundtrip (itemChildren_author r)
    (fun v hv => rtAuthor v (optWf_some hA v hv))
  simp [renderItem, parseItem, ht, hl, hd, hs, he, hc, hp, hg, hcm, ha, ← hx]

theorem findChild_renderItems_ne {n : String} (h : ¬"item" = n)
    (l : List (Option Item)) : findChild (renderItems l) n = none := by
  induction l with
  | nil => rfl
  | cons o t ih =>
    cases o with
    | none => simpa [renderItems] using ih
    | some it => simpa [renderItems, findChild, nodeName, renderItem, h] using ih

theorem rtItems (l : List (Option Item))
    (h : l.all (fun o =>
      match o with
      | some it => wfItem it
      | none => false) = true) :
    parseItemList (renderItems l) = some l := by
  induction l with
  | nil => rfl
  | cons o t ih =>
    simp only [List.all_cons, Bool.and_eq_true] at h
    cases o with
    | none => simp at h
    | some it =>
      have hone : parseItem (XmlNode.elem "item" [] "" (itemChildren it)) = some it :=
        rtItem it h.1
      have hrest : parseItemList (t.filterMap (fun o => Option.map renderItem o)) =
          some t := by
        simpa [renderItems] using ih h.2
      simp [renderItems, parseItemList, nodeName, renderItem, hone, hrest]


theorem channelChildren_title (r : Channel) :
    findChild (channelChildren r) "title" = some (renderTitle r.title) := by
  simp [channelChildren, findChild_append, findChild_optStr, findChild, nodeName,
    firstChild_some, firstChild_none, firstChild_none_right, renderTitle, renderLink,
    renderDescription, renderPubDate, renderLastBuildDate, renderCategory, renderCloud,
    renderTTL, renderImage, renderTextInput, renderSkipHours, renderSkipDays,
    findChild_renderItems_ne]

theorem channelChildren_link (r : Channel) :
    findChild (channelChildren r) "link" = some (renderLink r.link) := by
  simp [channelChildren, findChild_append, findChild_optStr, findChild, nodeName,
    firstChild_some, firstChild_none, firstChild_none_right, renderTitle, renderLink,
    renderDescription, renderPubDate, renderLastBuildDate, renderCategory, renderCloud,
    renderTTL, renderImage, renderTextInput, renderSkipHours, renderSkipDays,
    findChild_renderItems_ne]

theorem channelChildren_description (r : Channel) :
    findChild (channelChildren r) "description" = some (renderDescription r.description) := by
  simp [channelChildren, findChild_append, findChild_optStr, findChild, nodeName,
    firstChild_some, firstChild_none, firstChild_none_right, renderTitle, renderLink,
    renderDescription, renderPubDate, renderLastBuildDate, renderCategory, renderCloud,
    renderTTL, renderImage, renderTextInput, renderSkipHours, renderSkipDays,
    findChild_renderItems_ne]

theorem channelChildren_pubDate (r : Channel) :
    findChild (channelChildren r) "pubDate" = some (renderPubDate r.pubDate) := by
  simp [channelChildren, findChild_append, findChild_optStr, findChild, nodeName,
    firstChild_some, firstChild_none, firstChild_none_right, renderTitle, renderLink,
    renderDescription, renderPubDate, renderLastBuildDate, renderCategory, renderCloud,
    renderTTL, renderImage, renderTextInput, renderSkipHours, renderSkipDays,
    findChild_renderItems_ne]

theorem channelChildren_lastBuildDate (r : Channel) :
    findChild (channelChildren r) "lastBuildDate" = some (renderLastBuildDate r.lastBuildDate) := by
  simp [channelChildren, findChild_append, findChild_optStr, findChild, nodeName,
    firstChild_some, firstChild_none, firstChild_none_right, renderTitle, renderLink,
    renderDescription, renderPubDate, renderLastBuildDate, renderCategory, renderCloud,
    renderTTL, renderImage, renderTextInput, renderSkipHours, renderSkipDays,
    findChild_renderItems_ne]

theorem channelChildren_category (r : Channel) :
    findChild (channelChildren r) "category" = some (renderCategory r.category) := by
  simp [channelChildren, findChild_append, findChild_optStr, findChild, nodeName,
    firstChild_some, firstChild_none, firstChild_none_right, renderTitle, renderLink,
    renderDescription, renderPubDate, renderLastBuildDate, renderCategory, renderCloud,
    renderTTL, renderImage, renderTextInput, renderSkipHours, renderSkipDays,
    findChild_renderItems_ne]

theorem channelChildren_cloud (r : Channel) :
    findChild (channelChildren r) "cloud" = some (renderCloud r.cloud) := by
  simp [channelChildren, findChild_append, findChild_optStr, findChild, nodeName,
    firstChild_some, firstChild_none, firstChild_none_right, renderTitle, renderLink,
    renderDescription, renderPubDate, renderLastBuildDate, renderCategory, renderCloud,
    renderTTL, renderImage, renderTextInput, renderSkipHours, renderSkipDays,
    findChild_renderItems_ne]

theorem channelChildren_ttl (r : Channel) :
    findChild (channelChildren r) "ttl" = some (renderTTL r.ttl) := by
  simp [channelChildren, findChild_append, findChild_optStr, findChild, nodeName,
    firstChild_some, firstChild_none, firstChild_none_right, renderTitle, renderLink,
    renderDescription, renderPubDate, renderLastBuildDate, renderCategory, renderCloud,
    renderTTL, renderImage, renderTextInput, renderSkipHours, renderSkipDays,
    findChild_renderItems_ne]

theorem channelChildren_image (r : Channel) :
    findChild (channelChildren r) "image" = some (renderImage r.image) := by
  simp [channelChildren, findChild_append, findChild_optStr, findChild, nodeName,
    firstChild_some, firstChild_none, firstChild_none_right, renderTitle, renderLink,
    renderDescription, renderPubDate, renderLastBuildDate, renderCategory, renderCloud,
    renderTTL, renderImage, renderTextInput, renderSkipHours, renderSkipDays,
    findChild_renderItems_ne]

theorem channelChildren_textInput (r : Channel) :
    findChild (channelChildren r) "textInput" = some (renderTextInput r.textInput) := by
  simp [channelChildren, findChild_append, findChild_optStr, findChild, nodeName,
    firstChild_some, firstChild_none, firstChild_none_right, renderTitle, renderLink,
    renderDescription, renderPubDate, renderLastBuildDate, renderCategory, renderCloud,
    renderTTL, renderImage, renderTextInput, renderSkipHours, renderSkipDays,
    findChild_renderItems_ne]

theorem channelChildren_skipHours (r : Channel) :
    findChild (channelChildren r) "skipHours" = some (renderSkipHours r.skipHours) := by
  simp [channelChildren, findChild_append, findChild_optStr, findChild, nodeName,
    firstChild_some, firstChild_none, firstChild_none_right, renderTitle, renderLink,
    renderDescription, renderPubDate, renderLastBuildDate, renderCategory, renderCloud,
    renderTTL, renderImage, renderTextInput, renderSkipHours, renderSkipDays,
    findChild_renderItems_ne]

theorem channelChildren_skipDays (r : Channel) :
    findChild (channelChildren r) "skipDays" = some (renderSkipDays r.skipDays) := by
  simp [channelChildren, findChild_append, findChild_optStr, findChild, nodeName,
    firstChild_some, firstChild_none, firstChild_none_right, renderTitle, renderLink,
    renderDescription, renderPubDate, renderLastBuildDate, renderCategory, renderCloud,
    renderTTL, renderImage, renderTextInput, renderSkipHours, renderSkipDays,
    findChild_renderItems_ne]

theorem channelChildren_language (r : Channel) :
    findChild (channelChildren r) "language" =
      if r.language == "" then none else some (.elem "language" [] r.language []) := by
  simp [channelChildren, findChild_append, findChild_optStr, findChild, nodeName,
    firstChild_some, firstChild_none, firstChild_none_right, renderTitle, renderLink,
    renderDescription, renderPubDate, renderLastBuildDate, renderCategory, renderCloud,
    renderTTL, renderImage, renderTextInput, renderSkipHours, renderSkipDays,
    findChild_renderItems_ne]

theorem channelChildren_copyright (r : Channel) :
    findChild (channelChildren r) "copyright" =
      if r.copyright == "" then none else some (.elem "copyright" [] r.copyright []) := by
  simp [channelChildren, findChild_append, findChild_optStr, findChild, nodeName,
    firstChild_some, firstChild_none, firstChild_none_right, renderTitle, renderLink,
    renderDescription, renderPubDate, renderLastBuildDate, renderCategory, renderCloud,
    renderTTL, renderImage, renderTextInput, renderSkipHours, renderSkipDays,
    findChild_renderItems_ne]

theorem channelChildren_managingEditor (r : Channel) :
    findChild (channelChildren r) "managingEditor" =
      if r.managingEditor == "" then none else some (.elem "managingEditor" [] r.managingEditor []) := by
  simp [channelChildren, findChild_append, findChild_optStr, findChild, nodeName,
    firstChild_some, firstChild_none, firstChild_none_right, renderTitle, renderLink,
    renderDescription, renderPubDate, renderLastBuildDate, renderCategory, renderCloud,
    renderTTL, renderImage, renderTextInput, renderSkipHours, renderSkipDays,
    findChild_renderItems_ne]

theorem channelChildren_webMaster (r : Channel) :
    findChild (channelChildren r) "webMaster" =
      if r.webMaster == "" then none else some (.elem "webMaster" [] r.webMaster []) := by
  simp [channelChildren, findChild_append, findChild_optStr, findChild, nodeName,
    firstChild_some, firstChild_none, firstChild_none_right, renderTitle, renderLink,
    renderDescription, renderPubDate, renderLastBuildDate, renderCategory, renderCloud,
    renderTTL, renderImage, renderTextInput, renderSkipHours, renderSkipDays,
    findChild_renderItems_ne]

theorem channelChildren_generator (r : Channel) :
    findChild (channelChildren r) "generator" =
      if r.generator == "" then none else some (.elem "generator" [] r.generator []) := by
  simp [channelChildren, findChild_append, findChild_optStr, findChild, nodeName,
    firstChild_some, firstChild_none, firstChild_none_right, renderTitle, renderLink,
    renderDescription, renderPubDate, renderLastBuildDate, renderCategory, renderCloud,
    renderTTL, renderImage, renderTextInput, renderSkipHours, renderSkipDays,
    findChild_renderItems_ne]

theorem channelChildren_docs (r : Channel) :
    findChild (channelChildren r) "docs" =
      if r.docs == "" then none else some (.elem "docs" [] r.docs []) := by
  simp [channelChildren, findChild_append, findChild_optStr, findChild, nodeName,
    firstChild_some, firstChild_none, firstChild_none_right, renderTitle, renderLink,
    renderDescription, renderPubDate, renderLastBuildDate, renderCategory, renderCloud,
    renderTTL, renderImage, renderTextInput, renderSkipHours, renderSkipDays,
    findChild_renderItems_ne]

theorem channelChildren_rating (r : Channel) :
    findChild (channelChildren r) "rating" =
      if r.rating == "" then none else some (.elem "rating" [] r.rating []) := by
  simp [channelChildren, findChild_append, findChild_optStr, findChild, nodeName,
    firstChild_some, firstChild_none, firstChild_none_right, renderTitle, renderLink,
    renderDescription, renderPubDate, renderLastBuildDate, renderCategory, renderCloud,
    renderTTL, renderImage, renderTextInput, renderSkipHours, renderSkipDays,
    findChild_renderItems_ne]

theorem channelChildren_items (r : Channel) :
    parseItemList (channelChildren r) = parseItemList (renderItems r.item) := by
  simp [channelChildren, parseItemList_cons_skip, parseItemList_optStr_skip, nodeName,
    renderTitle, renderLink, renderDescription, renderPubDate, renderLastBuildDate,
    renderCategory, renderCloud, renderTTL, renderImage, renderTextInput,
    renderSkipHours, renderSkipDays]

theorem rtChannel (r : Channel) (h : wfChannel r = true) :
    parseChannel (renderChannel r) = some r := by
  simp only [wfChannel, Bool.and_eq_true, beq_iff_eq] at h
  obtain ⟨⟨⟨⟨⟨⟨⟨⟨⟨⟨⟨⟨⟨hx, hT⟩, hL⟩, hD⟩, hPD⟩, hLBD⟩, hCAT⟩, hCL⟩, hTT⟩,
    hIM⟩, hTI⟩, hSH⟩, hSD⟩, hIT⟩ := h
  have ht := parseChild_roundtrip (⟨"", ""⟩ : Title) (channelChildren_title r)
    (rtTitle r.title hT)
  have hl := parseChild_roundtrip (⟨"", ""⟩ : Link) (channelChildren_link r)
    (rtLink r.link hL)
  have hd := parseChild_roundtrip (⟨"", ""⟩ : Description)
    (channelChildren_description r) (rtDescription r.description hD)
  have hpd := parseChild_roundtrip (⟨"", ""⟩ : PubDate) (channelChildren_pubDate r)
    (rtPubDate r.pubDate hPD)
  have hlbd := parseChild_roundtrip (⟨"", ""⟩ : LastBuildDate)
    (channelChildren_lastBuildDate r) (rtLastBuildDate r.lastBuildDate hLBD)
  have hcat := parseChild_roundtrip (⟨"", "", none⟩ : Category)
    (channelChildren_category r) (rtCategory r.category hCAT)
  have hcl := parseChild_roundtrip (⟨"", "", none, none, none, none, none⟩ : Cloud)
    (channelChildren_cloud r) (rtCloud r.cloud hCL)
  have htt := parseChild_roundtrip (⟨"", ""⟩ : TTL) (channelChildren_ttl r)
    (rtTTL r.ttl hTT)
  have him := parseChild_roundtrip
    (⟨"", none, ⟨"", ""⟩, ⟨"", ""⟩, "", "", ⟨"", ""⟩⟩ : Image)
    (channelChildren_image r) (rtImage r.image hIM)
  have hti := parseChild_roundtrip (⟨"", none, none, none, none⟩ : TextInput)
    (channelChildren_textInput r) (rtTextInput r.textInput hTI)
  have hsh := parseChild_roundtrip (⟨"", []⟩ : SkipHours)
    (channelChildren_skipHours r) (rtSkipHours r.skipHours hSH)
  have hsd := parseChild_roundtrip (⟨"", []⟩ : SkipDays)
    (channelChildren_skipDays r) (rtSkipDays r.skipDays hSD)
  have hlang : strField (channelChildren r) "language" = r.language :=
    strField_eq (channelChildren_language r)
  have hcop : strField (channelChildren r) "copyright" = r.copyright :=
    strField_eq (channelChildren_copyright r)
  have hme : strField (channelChildren r) "managingEditor" = r.managingEditor :=
    strField_eq (channelChildren_managingEditor r)
  have hwm : strField (channelChildren r) "webMaster" = r.webMaster :=
    strField_eq (channelChildren_webMaster r)
  have hgen : strField (channelChildren r) "generator" = r.generator :=
    strField_eq (channelChildren_generator r)
  have hdoc : strField (channelChildren r) "docs" = r.docs :=
    strField_eq (channelChildren_docs r)
  have hrat : strField (channelChildren r) "rating" = r.rating :=
    strField_eq (channelChildren_rating r)
  have hit : parseItemList (channelChildren r) = some r.item := by
    rw [channelChildren_items]
    exact rtItems r.item hIT
  simp only [renderChannel, parseChannel, ht, hl, hd, hpd, hlbd, hcat, hcl, htt,
    him, hti, hsh, hsd, hlang, hcop, hme, hwm, hgen, hdoc, hrat, hit]
  rw [← hx]
  simp

theorem rtRSS (r : RSS) (h : wfRSS r = true) :
    parseRSS (renderRSS r) = some r := by
  simp only [wfRSS, Bool.and_eq_true, beq_iff_eq] at h
  obtain ⟨hx, hC⟩ := h
  have hfind : findChild (optNode renderChannel r.channel) "channel" =
      r.channel.map renderChannel := by
    simp [findChild_optChannel]
  have hch := parseOptChild_roundtrip hfind
    (fun v hv => rtChannel v (optWf_some hC v hv))
  simp [renderRSS, parseRSS, hch, findAttr, ← hx]


/-! ## The verdict/violation-list invariant

Every `if`-block of every `IsValid` method sets `isValid = false`
exactly when it appends, so the returned boolean always agrees with
emptiness of the returned list. -/

/-- The verdict equals emptiness of the violation list. -/
def vinv (x : Bool × List Err) : Prop := x.1 = x.2.isEmpty

theorem vinv_nil : vinv (true, []) := rfl

theorem vinv_chk {acc : Bool × List Err} {p : Bool} {e : Err} (h : vinv acc) :
    vinv (chk acc p e) := by
  cases p <;> simp [chk, vinv] at h ⊢
  exact h

theorem vinv_sub {acc c : Bool × List Err} (h : vinv acc) (hc : vinv c) :
    vinv (sub acc c) := by
  rcases c with ⟨cb, ce⟩
  cases cb <;> simp [sub, vinv] at h hc ⊢
  · exact fun _ => hc
  · exact h

theorem vinv_subOpt {acc : Bool × List Err} {o : Option α} {f : α → Bool × List Err}
    (h : vinv acc) (hf : ∀ x, vinv (f x)) : vinv (subOpt acc o f) := by
  cases o with
  | none => exact h
  | some x => exact vinv_sub h (hf x)

theorem vinv_Title (r : Title) : vinv (Title.IsValid r) := vinv_chk vinv_nil

theorem vinv_Link (r : Link) : vinv (Link.IsValid r) := vinv_chk (vinv_chk vinv_nil)

theorem vinv_Description (r : Description) : vinv (Description.IsValid r) :=
  vinv_chk vinv_nil

theorem vinv_PubDate (r : PubDate) : vinv (PubDate.IsValid r) :=
  vinv_chk (vinv_chk vinv_nil)

theorem vinv_LastBuildDate (r : LastBuildDate) : vinv (LastBuildDate.IsValid r) :=
  vinv_chk (vinv_chk vinv_nil)

theorem vinv_Category (r : Category) : vinv (Category.IsValid r) := by
  rcases r with ⟨n, cd, dom⟩
  cases dom
  · exact vinv_chk vinv_nil
  · exact vinv_chk (vinv_chk vinv_nil)

theorem vinv_Cloud (r : Cloud) : vinv (Cloud.IsValid r) := by
  rcases r with ⟨n, cd, dom, port, path, rp, proto⟩
  cases dom <;> cases port <;> cases path <;> cases rp <;> cases proto <;>
    exact vinv_chk (vinv_chk (vinv_chk (vinv_chk (vinv_chk (vinv_chk vinv_nil)))))

theorem vinv_TTL (r : TTL) : vinv (TTL.IsValid r) := vinv_chk (vinv_chk vinv_nil)

theorem vinv_Image (r : Image) : vinv (Image.IsValid r) := vinv_nil

theorem vinv_Name (r : Name) : vinv (Name.IsValid r) := vinv_chk vinv_nil

theorem vinv_Source (r : Source) : vinv (Source.IsValid r) := by
  rcases r with ⟨n, cd, url⟩
  cases url
  · exact vinv_chk vinv_nil
  · exact vinv_chk (vinv_chk vinv_nil)

theorem vinv_Enclosure (r : Enclosure) : vinv (Enclosure.IsValid r) := by
  rcases r with ⟨n, cd, url, len, ty⟩
  cases url <;> cases len <;> cases ty <;>
    first
    | exact vinv_chk (vinv_chk (vinv_chk (vinv_chk vinv_nil)))
    | exact vinv_chk (vinv_chk (vinv_chk (vinv_chk (vinv_chk vinv_nil))))

theorem vinv_GUID (r : GUID) : vinv (GUID.IsValid r) := by
  rcases r with ⟨n, cd, ipl⟩
  cases ipl with
  | none => exact vinv_chk vinv_nil
  | some p =>
    show vinv (if p == "true" then _ else _)
    split
    · exact vinv_chk (vinv_chk (vinv_chk vinv_nil))
    · exact vinv_chk (vinv_chk vinv_nil)

theorem vinv_Comments (r : Comments) : vinv (Comments.IsValid r) :=
  vinv_chk (vinv_chk vinv_nil)

theorem vinv_Author (r : Author) : vinv (Author.IsValid r) :=
  vinv_chk (vinv_chk vinv_nil)

theorem vinv_validateFields (r : RSSElementVal) : vinv (validateFields r) := by
  cases r with
  | image i =>
    exact vinv_sub (vinv_sub (vinv_sub vinv_nil (vinv_Title _)) (vinv_Link _))
      (vinv_Description _)
  | textInput t =>
    exact vinv_subOpt (vinv_subOpt (vinv_subOpt (vinv_subOpt vinv_nil vinv_Title)
      vinv_Description) vinv_Name) vinv_Link
  | item i =>
    exact vinv_subOpt (vinv_subOpt (vinv_subOpt (vinv_subOpt (vinv_subOpt (vinv_subOpt
      (vinv_subOpt (vinv_subOpt (vinv_subOpt (vinv_subOpt vinv_nil vinv_Title)
      vinv_Link) vinv_Description) vinv_Source) vinv_Enclosure) vinv_Category)
      vinv_PubDate) vinv_GUID) vinv_Comments) vinv_Author
  | _ => exact vinv_nil

theorem vinv_Item (r : Item) : vinv (Item.IsValid r) :=
  vinv_sub (vinv_chk vinv_nil) (vinv_validateFields (.item r))

theorem vinv_TextInput (r : TextInput) : vinv (TextInput.IsValid r) :=
  vinv_sub (vinv_chk vinv_nil) (vinv_validateFields (.textInput r))

theorem vinv_elemIsValid (r : RSSElementVal) : vinv (elemIsValid r) := by
  cases r with
  | rss r => exact vinv_validateFields (.rss r)
  | title r => exact vinv_Title r
  | link r => exact vinv_Link r
  | description r => exact vinv_Description r
  | pubDate r => exact vinv_PubDate r
  | lastBuildDate r => exact vinv_LastBuildDate r
  | category r => exact vinv_Category r
  | cloud r => exact vinv_Cloud r
  | ttl r => exact vinv_TTL r
  | image r => exact vinv_Image r
  | textInput r => exact vinv_TextInput r
  | name r => exact vinv_Name r
  | item r => exact vinv_Item r
  | source r => exact vinv_Source r
  | enclosure r => exact vinv_Enclosure r
  | guid r => exact vinv_GUID r
  | comments r => exact vinv_Comments r
  | author r => exact vinv_Author r


/-! ## List-shape helpers for the violation lists -/

theorem all_chk {acc : Bool × List Err} {p : Bool} {e : Err} (q : Err → Bool) :
    ((chk acc p e).2.all q) = (acc.2.all q && (p || q e)) := by
  cases p <;> simp [chk]

theorem any_chk {acc : Bool × List Err} {p : Bool} {e : Err} (q : Err → Bool) :
    ((chk acc p e).2.any q) = (acc.2.any q || (!p && q e)) := by
  cases p <;> simp [chk]

theorem all_sub {acc c : Bool × List Err} (q : Err → Bool)
    (h : acc.2.all q = true) (hc : c.2.all q = true) : (sub acc c).2.all q = true := by
  cases hc1 : c.1 <;> simp [sub, hc1, h, hc]

theorem all_subOpt {acc : Bool × List Err} {o : Option α} {f : α → Bool × List Err}
    (q : Err → Bool) (h : acc.2.all q = true) (hf : ∀ x, (f x).2.all q = true) :
    (subOpt acc o f).2.all q = true := by
  cases o with
  | none => exact h
  | some x => exact all_sub q h (hf x)

/-- The shape of the `Item` title/description violation: kind
`ErrInvalidElement` with an element-level (not attribute-level)
message.  No violation produced by any sub-element of an `Item` has
this shape: the sub-elements' `ErrInvalidElement` violations are all
attribute-required messages. -/
def tdShape (e : Err) : Bool :=
  match e.kind, e.msg with
  | .invalidElement, .elemInvalid _ => true
  | _, _ => false

theorem noTd_Title (r : Title) :
    (Title.IsValid r).2.all (fun e => !tdShape e) = true := by
  simp [Title.IsValid, all_chk, tdShape]

theorem noTd_Link (r : Link) :
    (Link.IsValid r).2.all (fun e => !tdShape e) = true := by
  simp [Link.IsValid, all_chk, tdShape]

theorem noTd_Description (r : Description) :
    (Description.IsValid r).2.all (fun e => !tdShape e) = true := by
  simp [Description.IsValid, all_chk, tdShape]

theorem noTd_PubDate (r : PubDate) :
    (PubDate.IsValid r).2.all (fun e => !tdShape e) = true := by
  simp [PubDate.IsValid, all_chk, tdShape]

theorem noTd_Category (r : Category) :
    (Category.IsValid r).2.all (fun e => !tdShape e) = true := by
  rcases r with ⟨n, cd, dom⟩
  cases dom <;> simp [Category.IsValid, all_chk, tdShape]

theorem noTd_Source (r : Source) :
    (Source.IsValid r).2.all (fun e => !tdShape e) = true := by
  rcases r with ⟨n, cd, url⟩
  cases url <;> simp [Source.IsValid, all_chk, tdShape]

theorem noTd_Enclosure (r : Enclosure) :
    (Enclosure.IsValid r).2.all (fun e => !tdShape e) = true := by
  rcases r with ⟨n, cd, url, len, ty⟩
  cases url <;> cases len <;> cases ty <;> simp [Enclosure.IsValid, all_chk, tdShape]

theorem noTd_GUID (r : GUID) :
    (GUID.IsValid r).2.all (fun e => !tdShape e) = true := by
  rcases r with ⟨n, cd, ipl⟩
  cases ipl with
  | none => simp [GUID.IsValid, all_chk, tdShape]
  | some p =>
    cases hp : p == "true" <;> simp [GUID.IsValid, hp, all_chk, tdShape]

theorem noTd_Comments (r : Comments) :
    (Comments.IsValid r).2.all (fun e => !tdShape e) = true := by
  simp [Comments.IsValid, all_chk, tdShape]

theorem noTd_Author (r : Author) :
    (Author.IsValid r).2.all (fun e => !tdShape e) = true := by
  simp [Author.IsValid, all_chk, tdShape]

theorem noTd_itemFields (i : Item) :
    (validateFields (.item i)).2.all (fun e => !tdShape e) = true :=
  all_subOpt _ (all_subOpt _ (all_subOpt _ (all_subOpt _ (all_subOpt _ (all_subOpt _
    (all_subOpt _ (all_subOpt _ (all_subOpt _ (all_subOpt _ rfl noTd_Title)
    noTd_Link) noTd_Description) noTd_Source) noTd_Enclosure) noTd_Category)
    noTd_PubDate) noTd_GUID) noTd_Comments) noTd_Author

/-- The `Item` title/description violation value for a given item. -/
def itemTdErr (r : Item) : Err := ⟨.invalidElement, .elemInvalid r.xmlName⟩

theorem count_itemTdErr (i : Item) :
    (Item.IsValid i).2.count (itemTdErr i) = if titleDescMissing i then 1 else 0 := by
  have hnot : itemTdErr i ∉ (validateFields (.item i)).2 := by
    intro hmem
    have := List.all_eq_true.mp (noTd_itemFields i) _ hmem
    simp [tdShape, itemTdErr] at this
  have hzero : (validateFields (.item i)).2.count (itemTdErr i) = 0 :=
    List.count_eq_zero.mpr hnot
  show (sub (chk (true, []) (!titleDescMissing i) (itemTdErr i))
      (validateFields (.item i))).2.count (itemTdErr i) = _
  rcases hv : validateFields (.item i) with ⟨cb, ce⟩
  rw [hv] at hzero
  cases cb <;> cases hcond : titleDescMissing i <;>
    simp [sub, chk, hzero, hcond]


/-- Whether a violation carries the `ErrInvalidURI` sentinel. -/
def isUriKind (e : Err) : Bool :=
  match e.kind with
  | .invalidURI => true
  | _ => false

/-! ## The claims -/

/-- C1: the claim states that any `RSS` value whose version attribute
differs from `"2.0"` validates as false.  On the code this FAILS:
`Version.IsValid` has signature `IsValid() bool`, so `Version` (and
likewise `*Channel`) does not implement the `RSSElement` interface and
the type assertion inside `Validate` skips both fields — `RSS.IsValid`
returns `(true, [])` for every document, the version string "1.0"
included, even though `Version.IsValid` itself rejects it.  The code
contradicts its own documentation ("version attribute must be 2.0"),
so this is a code bug, witnessed here by evaluating the code. -/
theorem rss_isValid_ignores_version :
    (∀ r : RSS, RSS.IsValid r = Except.ok ((true, []) : Bool × List Err)) ∧
    RSS.IsValid ⟨"rss", "1.0", none⟩ = Except.ok ((true, []) : Bool × List Err) ∧
    Version.IsValid "1.0" = false :=
  ⟨fun _ => rfl, rfl, by decide⟩

/-- C2: the claim states that a present `port` draws an `InvalidValue`
violation iff it is not an integer in `[1, 65535]`, so that "0" and
"70000" make the `Cloud` invalid.  On the code this FAILS: the range
condition is written `i < 1 && i > 65535`, which is unsatisfiable, so
only unparseable strings are rejected — a `Cloud` with port "0" or
"70000" (all other attributes valid) validates as `(true, [])`, and
`portPass` coincides with parseability.  The error message itself says
"must be a valid port (1-65535)", so this is a code bug. -/
theorem cloud_port_value_never_rejected :
    Cloud.IsValid ⟨"cloud", "", some "example.com", some "0", some "/rpc",
      some "notify", some "xml-rpc"⟩ = (true, []) ∧
    Cloud.IsValid ⟨"cloud", "", some "example.com", some "70000", some "/rpc",
      some "notify", some "xml-rpc"⟩ = (true, []) ∧
    (∀ p : String, portPass p = (parseUint10 p).isSome) := by
  refine ⟨by decide, by decide, ?_⟩
  intro p
  unfold portPass
  cases hpu : parseUint10 p with
  | none => rfl
  | some i =>
    have hno : ¬(i < 1 ∧ 65535 < i) := by omega
    simp [hno]
    omega

/-- C3: round-trip of the serialization adapter: for every element
tree of the data model — the whole `RSS` document, `Channel`, `Item`,
`SkipHours` and `SkipDays` (with their repeatable children), `Image`,
`TextInput`, and every leaf element — in which no field the format
requires is absent (every `XMLName` carries its fixed tag, and no
repeatable-child entry is a nil pointer; genuinely optional fields may
be absent or present freely), `parse(render(T)) = T`.  Note the source
tags `SkipDays`' `Day` children as `"hour"`; render and parse use that
tag symmetrically, so the round trip still holds, and `Hour` children
round-trip through their decimal form. -/
theorem adapter_roundtrip :
    (∀ r : RSS, wfRSS r = true → parseRSS (renderRSS r) = some r) ∧
    (∀ r : Channel, wfChannel r = true → parseChannel (renderChannel r) = some r) ∧
    (∀ r : Item, wfItem r = true → parseItem (renderItem r) = some r) ∧
    (∀ r : SkipHours, wfSkipHours r = true →
      parseSkipHours (renderSkipHours r) = some r) ∧
    (∀ r : SkipDays, wfSkipDays r = true → parseSkipDays (renderSkipDays r) = some r) ∧
    (∀ r : Image, wfImage r = true → parseImage (renderImage r) = some r) ∧
    (∀ r : TextInput, wfTextInput r = true →
      parseTextInput (renderTextInput r) = some r) ∧
    (∀ r : Title, wfTitle r = true → parseTitle (renderTitle r) = some r) ∧
    (∀ r : Link, wfLink r = true → parseLink (renderLink r) = some r) ∧
    (∀ r : Description, wfDescription r = true →
      parseDescription (renderDescription r) = some r) ∧
    (∀ r : PubDate, wfPubDate r = true → parsePubDate (renderPubDate r) = some r) ∧
    (∀ r : LastBuildDate, wfLastBuildDate r = true →
      parseLastBuildDate (renderLastBuildDate r) = some r) ∧
    (∀ r : Category, wfCategory r = true → parseCategory (renderCategory r) = some r) ∧
    (∀ r : Cloud, wfCloud r = true → parseCloud (renderCloud r) = some r) ∧
    (∀ r : TTL, wfTTL r = true → parseTTL (renderTTL r) = some r) ∧
    (∀ r : Name, wfName r = true → parseName (renderName r) = some r) ∧
    (∀ r : Source, wfSource r = true → parseSource (renderSource r) = some r) ∧
    (∀ r : Enclosure, wfEnclosure r = true →
      parseEnclosure (renderEnclosure r) = some r) ∧
    (∀ r : GUID, wfGUID r = true → parseGUID (renderGUID r) = some r) ∧
    (∀ r : Comments, wfComments r = true → parseComments (renderComments r) = some r) ∧
    (∀ r : Author, wfAuthor r = true → parseAuthor (renderAuthor r) = some r) :=
  ⟨rtRSS, rtChannel, rtItem, rtSkipHours, rtSkipDays, rtImage, rtTextInput, rtTitle,
   rtLink, rtDescription, rtPubDate, rtLastBuildDate, rtCategory, rtCloud, rtTTL,
   rtName, rtSource, rtEnclosure, rtGUID, rtComments, rtAuthor⟩

/-- A concrete item for the round-trip witness. -/
def sampleItem : Item :=
  ⟨"item", some ⟨"title", "Item A"⟩, none, some ⟨"description", "d"⟩, none, none,
    none, none, some ⟨"guid", "g", some "false"⟩, none, none⟩

/-- A concrete `SkipHours` tree with `Hour` children (one negative, to
exercise the signed decimal round trip). -/
def sampleSkipHours : SkipHours := ⟨"skipHours", [some 0, some 7, some 23, some (-1)]⟩

/-- A concrete `SkipDays` tree with `Day` children. -/
def sampleSkipDays : SkipDays := ⟨"skipDays", [some "Monday", some "Saturday"]⟩

/-- A concrete channel containing the named elements and two items. -/
def sampleChannel : Channel :=
  ⟨"channel", ⟨"title", "T"⟩, ⟨"link", "https://example.com"⟩,
    ⟨"description", "D"⟩, "en-us", "", "", "", ⟨"pubDate", ""⟩,
    ⟨"lastBuildDate", ""⟩, ⟨"category", "cat", none⟩, "", "",
    ⟨"cloud", "", some "d", some "80", some "/p", some "rp", some "xml-rpc"⟩,
    ⟨"ttl", "60"⟩,
    ⟨"image", some "https://example.com/i.png", ⟨"title", "T"⟩, ⟨"link", "L"⟩,
      "88", "", ⟨"description", "d"⟩⟩,
    "", ⟨"textInput", some ⟨"title", "t"⟩, none, none, none⟩,
    sampleSkipHours, sampleSkipDays,
    [some sampleItem,
     some ⟨"item", none, none, some ⟨"description", "x"⟩, none, none, none, none,
       none, none, none⟩]⟩

/-- A concrete full document. -/
def sampleDoc : RSS := ⟨"rss", "2.0", some sampleChannel⟩

/-- C3 witness: the round-trip theorem applied to the full concrete
document (whose channel contains `SkipDays` with `Day` children,
`SkipHours` with `Hour` children, and two items) and to the standalone
named elements. -/
theorem adapter_roundtrip_witness :
    parseRSS (renderRSS sampleDoc) = some sampleDoc ∧
    parseItem (renderItem sampleItem) = some sampleItem ∧
    parseSkipHours (renderSkipHours sampleSkipHours) = some sampleSkipHours ∧
    parseSkipDays (renderSkipDays sampleSkipDays) = some sampleSkipDays :=
  ⟨adapter_roundtrip.1 sampleDoc (by decide),
   adapter_roundtrip.2.2.1 sampleItem (by decide),
   adapter_roundtrip.2.2.2.1 sampleSkipHours (by decide),
   adapter_roundtrip.2.2.2.2.1 sampleSkipDays (by decide)⟩

/-- C4: the title/description rule of `Item.IsValid` — the violation
list contains the `InvalidElement` element-level violation exactly
once when both title and description are absent or empty and never
otherwise; the verdict is false in the former case; the item with
everything absent yields exactly that one violation, and the item
whose only present field is a description "x" is valid. -/
theorem item_title_description_rule :
    (∀ i : Item, (Item.IsValid i).2.count (itemTdErr i) =
      if titleDescMissing i then 1 else 0) ∧
    (∀ i : Item, titleDescMissing i = true → (Item.IsValid i).1 = false) ∧
    Item.IsValid ⟨"item", none, none, none, none, none, none, none, none, none, none⟩ =
      (false, [⟨.invalidElement, .elemInvalid "item"⟩]) ∧
    Item.IsValid ⟨"item", none, none, some ⟨"description", "x"⟩,
      none, none, none, none, none, none, none⟩ = (true, []) := by
  refine ⟨count_itemTdErr, ?_, by decide, by decide⟩
  intro i h
  show (sub (chk (true, []) (!titleDescMissing i) (itemTdErr i))
      (validateFields (.item i))).1 = false
  simp [sub, chk, h]

/-- C4 witness: the rule applied to the all-absent item. -/
theorem item_title_description_rule_witness :
    (Item.IsValid
      ⟨"item", none, none, none, none, none, none, none, none, none, none⟩).1 = false :=
  item_title_description_rule.2.1 _ (by decide)

/-- C5: the URI check of `GUID.IsValid` fires iff `isPermaLink` is
present with value `"true"` and the character data is not a valid URI;
in particular `GUID{data: "not a uri", isPermaLink: absent}` is valid
with no violations, and the same data with `isPermaLink = "true"` is
invalid with exactly one `InvalidUri` violation. -/
theorem guid_conditional_uri_check :
    (∀ g : GUID, ((GUID.IsValid g).2.any isUriKind) =
      (match g.isPermaLink with
       | some p => p == "true" && !(isValidURI g.charData)
       | none => false)) ∧
    GUID.IsValid ⟨"guid", "not a uri", none⟩ = (true, []) ∧
    GUID.IsValid ⟨"guid", "not a uri", some "true"⟩ =
      (false, [⟨.invalidURI, .elemValueInvalid "guid" "not a uri"⟩]) := by
  refine ⟨?_, by decide, by decide⟩
  intro g
  rcases g with ⟨n, cd, ipl⟩
  cases ipl with
  | none => simp [GUID.IsValid, any_chk, isUriKind]
  | some p =>
    cases hp : p == "true" <;> simp [GUID.IsValid, hp, any_chk, isUriKind]

/-- C6 counterexample: the claim "for every input of interface type
`RSSElement`, `Validate` completes normally — it never panics" is
false.  `*Title` implements `RSSElement` (the pointer's method set
contains the value-receiver `IsValid`), and `Validate` on a `*Title`
pointing at `Title{XMLName: "title", CharData: "x"}` panics at
`reflect.Value.NumField` (the argument is never indirected); so does
the nil interface. -/
theorem validate_panics_on_pointer_input :
    Validate (.ptr (some (.title ⟨"title", "x"⟩))) =
      Except.error "reflect: call of reflect.Value.NumField on ptr Value" ∧
    Validate .nilInterface =
      Except.error "reflect: call of reflect.Value.NumField on zero Value" :=
  ⟨rfl, rfl⟩

/-- C6 (amended): `Validate` completes normally — returning the
boolean verdict and (possibly empty) violation list of the field
loop — on every struct (non-pointer) value of an implementing type,
which are the only inputs the package itself ever passes to it;
on the pointer implementers and the nil interface it panics at
`reflect.Value.NumField`. -/
theorem validate_never_panics_on_struct_values :
    ∀ v : RSSElementVal, Validate (.val v) = Except.ok (validateFields v) :=
  fun _ => rfl

/-- C7: `Cloud{domain: absent, port: absent, path: "x",
registerProcedure: "x", protocol: "xml-rpc"}` with empty character
data yields the verdict false and exactly the two `InvalidElement`
violations for domain and port, in declared attribute order. -/
theorem cloud_missing_domain_port_exact_violations :
    Cloud.IsValid ⟨"cloud", "", none, none, some "x", some "x", some "xml-rpc"⟩ =
      (false, [⟨.invalidElement, .attrRequired "domain" "cloud"⟩,
               ⟨.invalidElement, .attrRequired "port" "cloud"⟩]) := by decide

/-- C8: every field governed by both a `not_empty` rule and a format
rule reports, on the empty string, both the `EmptyValue` violation and
the format-specific violation, in that order.  The fields with such a
rule pair are exactly: the character data of `pubDate` and
`lastBuildDate` (date), of `link` and `comments` (URI), of `author`
(mail address), of `ttl` (integer, `InvalidValue`), and of `guid`
when its conditional URI rule is armed by `isPermaLink="true"`; and
the `url` attributes of `source` and of `enclosure` (URI; the
enclosure's other attributes are held valid so the list is exact).
Each conjunct is universal in the element name. -/
theorem empty_field_reports_both_violations :
    (∀ nm : String, (PubDate.IsValid ⟨nm, ""⟩).2 =
      [⟨.emptyValue, .elemValueInvalid nm ""⟩,
       ⟨.invalidDate, .elemValueInvalid nm ""⟩]) ∧
    (∀ nm : String, (LastBuildDate.IsValid ⟨nm, ""⟩).2 =
      [⟨.emptyValue, .elemValueInvalid nm ""⟩,
       ⟨.invalidDate, .elemValueInvalid nm ""⟩]) ∧
    (∀ nm : String, (Link.IsValid ⟨nm, ""⟩).2 =
      [⟨.emptyValue, .elemValueInvalid nm ""⟩,
       ⟨.invalidURI, .elemValueInvalid nm ""⟩]) ∧
    (∀ nm : String, (Comments.IsValid ⟨nm, ""⟩).2 =
      [⟨.emptyValue, .elemValueInvalid nm ""⟩,
       ⟨.invalidURI, .elemValueInvalid nm ""⟩]) ∧
    (∀ nm : String, (Author.IsValid ⟨nm, ""⟩).2 =
      [⟨.emptyValue, .elemValueInvalid nm ""⟩,
       ⟨.invalidMailAddress, .elemValueInvalid nm ""⟩]) ∧
    (∀ nm : String, (Source.IsValid ⟨nm, "", some ""⟩).2 =
      [⟨.emptyValue, .attrValueInvalid "url" nm ""⟩,
       ⟨.invalidURI, .attrValueInvalid "url" nm ""⟩]) ∧
    (∀ nm : String, (TTL.IsValid ⟨nm, ""⟩).2 =
      [⟨.emptyValue, .elemValueInvalid nm ""⟩,
       ⟨.invalidValue, .elemValueInvalid nm ""⟩]) ∧
    (∀ nm : String, (Enclosure.IsValid ⟨nm, "", some "", some "0", some "t"⟩).2 =
      [⟨.emptyValue, .attrValueInvalid "url" nm ""⟩,
       ⟨.invalidURI, .attrValueInvalid "url" nm ""⟩]) ∧
    (∀ nm : String, (GUID.IsValid ⟨nm, "", some "true"⟩).2 =
      [⟨.emptyValue, .elemValueInvalid nm ""⟩,
       ⟨.invalidURI, .elemValueInvalid nm ""⟩]) := by
  have hd : isValidDate "" = false := by decide
  have hu : isValidURI "" = false := by decide
  have hm : isValidMailAddress "" = false := by decide
  have hp0 : uintPass "" = false := by decide
  have hp1 : uintPass "0" = true := by decide
  refine ⟨?_, ?_, ?_, ?_, ?_, ?_, ?_, ?_, ?_⟩ <;> intro nm <;>
    simp [PubDate.IsValid, LastBuildDate.IsValid, Link.IsValid, Comments.IsValid,
      Author.IsValid, Source.IsValid, TTL.IsValid, Enclosure.IsValid, GUID.IsValid,
      chk, hd, hu, hm, hp0, hp1]

/-- C9: a `SkipHours` with 25 or more `Hour` children is invalid
regardless of the children themselves (the length check short-circuits
before any child is inspected — even nil entries are never
dereferenced), and one with exactly 24 children whose values all lie
in `[0, 23]` is valid. -/
theorem skiphours_cardinality :
    (∀ r : SkipHours, 25 ≤ r.hour.length → SkipHours.IsValid r = .ok false) ∧
    (∀ r : SkipHours, r.hour.length = 24 →
      r.hour.all (fun o =>
        match o with
        | some v => decide (0 ≤ v ∧ v ≤ 23)
        | none => false) = true →
      SkipHours.IsValid r = .ok true) := by
  constructor
  · intro r h
    simp only [SkipHours.IsValid]
    rw [if_pos (by omega)]
  · intro r h hall
    simp only [SkipHours.IsValid]
    rw [if_neg (by omega)]
    exact hoursValid_ok _ hall

/-- C9 witness: 25 children (all of them nil pointers, i.e. maximally
invalid) give `false`; the 24 children `0, …, 23` give `true`. -/
theorem skiphours_cardinality_witness :
    SkipHours.IsValid ⟨"skipHours", List.replicate 25 none⟩ = .ok false ∧
    SkipHours.IsValid ⟨"skipHours", (List.range 24).map (fun k => some (k : Int))⟩ =
      .ok true :=
  ⟨skiphours_cardinality.1 _ (by decide),
   skiphours_cardinality.2 _ (by decide) (by decide)⟩

/-- C10: for every package implementer of `RSSElement`, the boolean
verdict of its `IsValid` method and of the `Validate` field loop is
true iff the returned violation list is empty. -/
theorem verdict_iff_no_violations :
    ∀ r : RSSElementVal, (elemIsValid r).1 = (elemIsValid r).2.isEmpty ∧
      (validateFields r).1 = (validateFields r).2.isEmpty :=
  fun r => ⟨vinv_elemIsValid r, vinv_validateFields r⟩


end Rss
